import Mathlib

/-!
# Cluster-connection and client-lifecycle manager of `mcp-k8s-sse-server`

Shallow embedding of `biz/clientset/clientcmd.go`, of the context tools of
`biz/context/context_handler.go`, of the pod status and pods table of
`biz/format_util.go`, and of the delete, exec, cordon and scale handlers of `biz/pod`,
`biz/node` and `biz/kruise`.

* The four package-level variables of `clientset` are the record `Vars`.
* Everything the code reaches through `os` and `client-go` is the record `World`:
  the kubeconfig files, a log of the library calls made so far, and the allocation
  counter that gives every constructed client its identity.
* Outcomes that the code does not control (where Go starts a `range` over a map,
  whether `ModifyConfig`, `ClientConfig` or `NewForConfig` fail) are read from an
  `Oracle` that is an argument of every operation.
* Go maps are association lists; `""` is the zero value of a Go string.
-/

namespace K8sMcp

/-- Results of fallible calls are compared by value. -/
instance instDecidableEqExcept {ε α : Type} [DecidableEq ε] [DecidableEq α] :
    DecidableEq (Except ε α) := fun a b =>
  match a, b with
  | Except.ok x, Except.ok y =>
    if h : x = y then isTrue (by rw [h]) else isFalse (fun h1 => h (Except.ok.inj h1))
  | Except.error x, Except.error y =>
    if h : x = y then isTrue (by rw [h]) else isFalse (fun h1 => h (Except.error.inj h1))
  | Except.ok _, Except.error _ => isFalse (fun h => Except.noConfusion h)
  | Except.error _, Except.ok _ => isFalse (fun h => Except.noConfusion h)

/-! ## The configuration document (`clientcmdapi.Config`) -/

/-- Value type of `Config.Clusters`, reduced to the endpoint. -/
structure Cluster where
  Server : String
  deriving DecidableEq, Repr

/-- Value type of `Config.AuthInfos`, reduced to one credential field. -/
structure AuthInfo where
  Token : String
  deriving DecidableEq, Repr

/-- Value type of `Config.Contexts`: a (cluster, user, namespace) triple. -/
structure Context where
  Cluster : String
  AuthInfo : String
  Namespace : String
  deriving DecidableEq, Repr

/-- The kubeconfig document: three maps and the `current-context` field. -/
structure Config where
  Clusters : List (String × Cluster)
  AuthInfos : List (String × AuthInfo)
  Contexts : List (String × Context)
  CurrentContext : String
  deriving DecidableEq, Repr

/-- Result of `clientcmdapi.NewConfig()`: no entries, no current context. -/
def NewConfig : Config :=
  { Clusters := [], AuthInfos := [], Contexts := [], CurrentContext := "" }

/-- Go's `_, exists := m[key]`. -/
def hasKey {α : Type} (m : List (String × α)) (key : String) : Bool :=
  m.any (fun kv => kv.1 == key)

/-- Name bound by the first iteration of `for name := range m`. Go starts a map
iteration at an unspecified entry; `seed` selects it. An empty map gives no iteration. -/
def rangeFirst {α : Type} (seed : Nat) (m : List (String × α)) : Option String :=
  (m.map Prod.fst)[seed % m.length]?

/-- Entries in the order a complete `for name, v := range m` visits them when it
starts at the entry selected by `seed`. -/
def rangeOrder {α : Type} (seed : Nat) (m : List (String × α)) : List (String × α) :=
  m.rotate (seed % m.length)

/-! ## The environment -/

/-- What is stored at a kubeconfig path. -/
inductive FileState where
  | absent
  | unreadable (err : String)
  | malformed (err : String)
  | doc (c : Config)
  deriving DecidableEq, Repr

/-- The two client kinds: `kubernetes.Clientset` and the OpenKruise `Clientset`. -/
inductive Kind where
  | core
  | workload
  deriving DecidableEq, Repr

/-- A constructed client. `path` and `context` record the kubeconfig path and the
context override it was built from; `id` is the identity of the allocation. -/
structure Client where
  kind : Kind
  path : String
  context : String
  id : Nat
  deriving DecidableEq, Repr

/-- Calls into `os` and `client-go`, in the order the code makes them. -/
inductive Event where
  | stat (path : String)
  | readFile (path : String)
  | loadFromFile (path : String)
  | getStartingConfig (path : String)
  | modifyConfig (path : String) (config : Config)
  | clientConfig (path : String) (context : String)
  | newForConfig (kind : Kind) (path : String) (context : String)
  deriving DecidableEq, Repr

/-- The environment: the file behind the default loading rules, the files at explicit
paths, the log of library calls, and the next client identity. -/
structure World where
  defaultFile : FileState
  files : String → FileState
  trace : List Event
  nextId : Nat

/-- Outcomes the code does not control, for one operation. -/
structure Oracle where
  /-- Start of the map iteration in `GetCurrentContext`. -/
  rangeSeed : Nat
  /-- Start of the map iterations in the context handler itself. -/
  handlerSeed : Nat
  /-- Error of `clientcmd.ModifyConfig`, if it fails. -/
  modifyConfigErr : Option String
  /-- Error of `configLoader.ClientConfig()`, if it fails. -/
  clientConfigErr : Option String
  /-- Error of `NewForConfig`, if it fails. -/
  newForConfigErr : Option String
  deriving DecidableEq, Repr

/-- Append a library call to the log. -/
def World.log (w : World) (e : Event) : World :=
  { w with trace := w.trace ++ [e] }

/-- File found at an explicit path; the empty path names no file. -/
def World.fileAt (w : World) (path : String) : FileState :=
  if path = "" then FileState.absent else w.files path

/-- File behind a `ConfigAccess`: the default loading rules for the path `""`,
`ExplicitPath` otherwise. -/
def World.fileOf (w : World) (path : String) : FileState :=
  if path = "" then w.defaultFile else w.files path

/-- Replace the document behind a `ConfigAccess`. -/
def World.writeDoc (w : World) (path : String) (c : Config) : World :=
  if path = "" then { w with defaultFile := FileState.doc c }
  else { w with files := fun p => if p = path then FileState.doc c else w.files p }

/-- Whether `os.IsNotExist(err)` holds for the error of `os.Stat(path)`. -/
def statIsNotExist (w : World) (path : String) : Bool :=
  match w.fileAt path with
  | FileState.absent => true
  | _ => false

/-- Error of `os.ReadFile(path)`, if any. -/
def readFileErr (w : World) (path : String) : Option String :=
  match w.fileAt path with
  | FileState.absent => some ("open " ++ path ++ ": no such file or directory")
  | FileState.unreadable err => some err
  | _ => none

/-- Library call `clientcmd.LoadFromFile(path)`. -/
def LoadFromFile (w : World) (path : String) : Except String Config :=
  match w.fileAt path with
  | FileState.absent => Except.error ("open " ++ path ++ ": no such file or directory")
  | FileState.unreadable err => Except.error err
  | FileState.malformed err => Except.error err
  | FileState.doc c => Except.ok c

/-- Library call `configAccess.GetStartingConfig()`: a missing file is an empty
configuration, a file that cannot be read or parsed is an error. -/
def GetStartingConfig (w : World) (path : String) : Except String Config :=
  match w.fileOf path with
  | FileState.absent => Except.ok NewConfig
  | FileState.unreadable err => Except.error err
  | FileState.malformed err => Except.error err
  | FileState.doc c => Except.ok c

/-- Library call `clientcmd.ModifyConfig(configAccess, config, true)`: on success the
document behind `configAccess` is `config`. -/
def ModifyConfig (o : Oracle) (path : String) (config : Config) (w : World) :
    Except String Unit × World :=
  let w1 := w.log (Event.modifyConfig path config)
  match o.modifyConfigErr with
  | some err => (Except.error err, w1)
  | none => (Except.ok (), w1.writeDoc path config)

/-! ## `biz/clientset/clientcmd.go` -/

/-- The package-level variables of `clientset`. -/
structure Vars where
  currentContext : String
  customKubeconfigPath : String
  clientsetPointer : Option Client
  kruiseClientPointer : Option Client
  deriving DecidableEq, Repr

/-- Values of the package variables at process start. -/
def Vars.init : Vars :=
  { currentContext := "", customKubeconfigPath := "",
    clientsetPointer := none, kruiseClientPointer := none }

/-- Source function `isValidConfig`. -/
def isValidConfig (config : Config) : Bool :=
  decide (config.Clusters.length > 0) && decide (config.Contexts.length > 0)
    && decide (config.AuthInfos.length > 0)

/-- Source function `ValidateAndFixKubeconfig`. -/
def ValidateAndFixKubeconfig (path : String) (w : World) : Except String Unit × World :=
  let w1 := w.log (Event.stat path)
  if statIsNotExist w path then
    (Except.error ("kubeconfig file does not exist: " ++ path), w1)
  else
    let w2 := w1.log (Event.readFile path)
    match readFileErr w path with
    | some err => (Except.error ("unable to read kubeconfig file: " ++ err), w2)
    | none =>
      let w3 := w2.log (Event.loadFromFile path)
      match LoadFromFile w path with
      | Except.error err => (Except.error ("invalid kubeconfig file format: " ++ err), w3)
      | Except.ok config =>
        if !isValidConfig config then
          (Except.error
            "invalid kubeconfig configuration, must contain at least one cluster, context, and user",
            w3)
        else
          (Except.ok (), w3)

/-- Source function `GetKubeConfig`. -/
def GetKubeConfig (s : Vars) (w : World) : Except String Config × World :=
  if s.customKubeconfigPath ≠ "" then
    let w1 := w.log (Event.loadFromFile s.customKubeconfigPath)
    match LoadFromFile w s.customKubeconfigPath with
    | Except.error err =>
      (Except.error ("unable to load custom kubeconfig file(" ++ s.customKubeconfigPath
        ++ "): " ++ err), w1)
    | Except.ok _ =>
      let w2 := w1.log (Event.getStartingConfig s.customKubeconfigPath)
      match GetStartingConfig w s.customKubeconfigPath with
      | Except.error err => (Except.error ("error loading kubeconfig: " ++ err), w2)
      | Except.ok config => (Except.ok config, w2)
  else
    let w1 := w.log (Event.getStartingConfig "")
    match GetStartingConfig w "" with
    | Except.error err => (Except.error ("error loading kubeconfig: " ++ err), w1)
    | Except.ok config => (Except.ok config, w1)

/-- Lines 81-89 of `GetCurrentContext`: when `currentContext` is empty and the document
declares contexts, the first name the map iteration yields becomes `currentContext`. -/
def adoptFirstContext (seed : Nat) (config : Config) (s : Vars) : Vars :=
  if s.currentContext = "" ∧ config.Contexts.length > 0 then
    match rangeFirst seed config.Contexts with
    | some name => { s with currentContext := name }
    | none => s
  else
    s

/-- Source function `GetCurrentContext`. -/
def GetCurrentContext (o : Oracle) (s : Vars) (w : World) :
    Except String String × Vars × World :=
  if s.currentContext ≠ "" then
    (Except.ok s.currentContext, s, w)
  else
    match GetKubeConfig s w with
    | (Except.error err, w1) => (Except.error err, s, w1)
    | (Except.ok config, w1) =>
      let s1 := adoptFirstContext o.rangeSeed config
        { s with currentContext := config.CurrentContext }
      (Except.ok s1.currentContext, s1, w1)

/-- The part `GetKubeClient`, `getKruiseClient` and `GetRESTConfig` share: build a
config loader for (`customKubeconfigPath`, `contextName`) and call `ClientConfig()`. -/
def loadClientConfig (o : Oracle) (s : Vars) (contextName : String) (w : World) :
    Except String Unit × World :=
  let w1 := w.log (Event.clientConfig s.customKubeconfigPath contextName)
  match o.clientConfigErr with
  | some err =>
    (Except.error ("failed to load kubeconfig for context " ++ contextName ++ ": " ++ err), w1)
  | none => (Except.ok (), w1)

/-- Library call `NewForConfig(config)` of either client package: a successful call
allocates a new client. -/
def NewForConfig (o : Oracle) (kind : Kind) (s : Vars) (contextName : String) (w : World) :
    Except String Client × World :=
  let w1 := w.log (Event.newForConfig kind s.customKubeconfigPath contextName)
  match o.newForConfigErr with
  | some err => (Except.error err, w1)
  | none =>
    (Except.ok { kind := kind, path := s.customKubeconfigPath, context := contextName,
                 id := w.nextId },
      { w1 with nextId := w.nextId + 1 })

/-- Source function `GetKubeClient`. -/
def GetKubeClient (o : Oracle) (s : Vars) (w : World) :
    Except String Client × Vars × World :=
  match s.clientsetPointer with
  | some cs => (Except.ok cs, s, w)
  | none =>
    match GetCurrentContext o s w with
    | (Except.error err, s1, w1) => (Except.error err, s1, w1)
    | (Except.ok contextName, s1, w1) =>
      match loadClientConfig o s1 contextName w1 with
      | (Except.error err, w2) => (Except.error err, s1, w2)
      | (Except.ok _, w2) =>
        match NewForConfig o Kind.core s1 contextName w2 with
        | (Except.error err, w3) =>
          (Except.error ("failed to create Kubernetes client for context " ++ contextName
            ++ ": " ++ err), s1, w3)
        | (Except.ok clientset, w3) =>
          (Except.ok clientset, { s1 with clientsetPointer := some clientset }, w3)

/-- Source function `getKruiseClient`. -/
def getKruiseClient (o : Oracle) (s : Vars) (w : World) :
    Except String Client × Vars × World :=
  match GetCurrentContext o s w with
  | (Except.error err, s1, w1) => (Except.error err, s1, w1)
  | (Except.ok contextName, s1, w1) =>
    match s1.kruiseClientPointer with
    | some kc => (Except.ok kc, s1, w1)
    | none =>
      match loadClientConfig o s1 contextName w1 with
      | (Except.error err, w2) => (Except.error err, s1, w2)
      | (Except.ok _, w2) =>
        match NewForConfig o Kind.workload s1 contextName w2 with
        | (Except.error err, w3) =>
          (Except.error ("failed to create OpenKruise client for context " ++ contextName
            ++ ": " ++ err), s1, w3)
        | (Except.ok kruiseClient, w3) =>
          (Except.ok kruiseClient, { s1 with kruiseClientPointer := some kruiseClient }, w3)

/-- Source function `GetKruiseClient`. -/
def GetKruiseClient (o : Oracle) (s : Vars) (w : World) :
    Except String Client × Vars × World :=
  getKruiseClient o s w

/-- Source function `ClearClientCache`. -/
def ClearClientCache (s : Vars) : Vars :=
  { s with clientsetPointer := none, kruiseClientPointer := none }

/-- Source function `SetCustomKubeconfigPath`. -/
def SetCustomKubeconfigPath (path : String) (s : Vars) : Vars :=
  { s with customKubeconfigPath := path }

/-- Source function `GetCustomKubeconfigPath`. -/
def GetCustomKubeconfigPath (s : Vars) : String :=
  s.customKubeconfigPath

/-- Source function `ResetCurrentContext`. -/
def ResetCurrentContext (s : Vars) : Vars :=
  { s with currentContext := "" }

/-- Source function `SetCurrentContext`. -/
def SetCurrentContext (ctx : String) (s : Vars) : Vars :=
  { s with currentContext := ctx }

/-- A `rest.Config`, reduced to the kubeconfig path and the context override it was
loaded for. -/
structure RestConfig where
  path : String
  context : String
  deriving DecidableEq, Repr

/-- Source function `GetRESTConfig`. -/
def GetRESTConfig (o : Oracle) (s : Vars) (w : World) :
    Except String RestConfig × Vars × World :=
  match GetCurrentContext o s w with
  | (Except.error err, s1, w1) => (Except.error err, s1, w1)
  | (Except.ok contextName, s1, w1) =>
    match loadClientConfig o s1 contextName w1 with
    | (Except.error err, w2) => (Except.error err, s1, w2)
    | (Except.ok _, w2) =>
      (Except.ok { path := s1.customKubeconfigPath, context := contextName }, s1, w2)

/-! ## `biz/context/context_handler.go` -/

/-- Text written for one entry by the loop of `listContextsInternal`. -/
def contextEntryText (currentCtx : String) (entry : String × Context) : String :=
  (if entry.1 = currentCtx then "* " ++ entry.1 ++ "\n" else "  " ++ entry.1 ++ "\n")
    ++ "    Cluster: " ++ entry.2.Cluster ++ "\n"
    ++ "    User: " ++ entry.2.AuthInfo ++ "\n"
    ++ "    Namespace: " ++ entry.2.Namespace ++ "\n"
    ++ "\n"

/-- Source function `setKubeconfigPathInternal`. -/
def setKubeconfigPathInternal (o : Oracle) (kubeconfigPath : String) (s : Vars) (w : World) :
    Except String String × Vars × World :=
  match ValidateAndFixKubeconfig kubeconfigPath w with
  | (Except.error err, w1) =>
    (Except.error ("kubeconfig validation failed: " ++ err), s, w1)
  | (Except.ok _, w1) =>
    let s1 := ClearClientCache (ResetCurrentContext (SetCustomKubeconfigPath kubeconfigPath s))
    match GetCurrentContext o s1 w1 with
    | (Except.error err, s2, w2) =>
      (Except.error ("could not get current context after setting kubeconfig path: " ++ err),
        s2, w2)
    | (Except.ok ctx, s2, w2) =>
      match GetKubeConfig s2 w2 with
      | (Except.error err, w3) =>
        (Except.error ("could not reload kubeconfig file: " ++ err), s2, w3)
      | (Except.ok configAfterSet, w3) =>
        if ctx = "" then
          if configAfterSet.Contexts.length > 0 then
            match rangeFirst o.handlerSeed configAfterSet.Contexts with
            | some name =>
              match ModifyConfig o (GetCustomKubeconfigPath s2)
                  { configAfterSet with CurrentContext := name } w3 with
              | (Except.error writeErr, w4) =>
                (Except.error ("failed to save kubeconfig file: " ++ writeErr), s2, w4)
              | (Except.ok _, w4) =>
                (Except.ok ("Kubeconfig path has been set to " ++ kubeconfigPath
                    ++ ", current context: " ++ name),
                  ClearClientCache (SetCurrentContext name s2), w4)
            | none =>
              (Except.ok ("Kubeconfig path has been set to " ++ kubeconfigPath
                ++ ", current context: " ++ ctx), s2, w3)
          else
            (Except.ok ("Kubeconfig path has been set to " ++ kubeconfigPath
              ++ ", current context: " ++ ctx), s2, w3)
        else
          (Except.ok ("Kubeconfig path has been set to " ++ kubeconfigPath
            ++ ", current context: " ++ ctx), s2, w3)

/-- Source function `listContextsInternal`. -/
def listContextsInternal (o : Oracle) (s : Vars) (w : World) :
    Except String String × Vars × World :=
  match GetKubeConfig s w with
  | (Except.error err, w1) => (Except.error err, s, w1)
  | (Except.ok config, w1) =>
    match GetCurrentContext o s w1 with
    | (Except.error err, s2, w2) => (Except.error err, s2, w2)
    | (Except.ok currentCtx, s2, w2) =>
      let header := "Available Kubernetes contexts:\n" ++ "----------------------------\n"
      let body :=
        if config.Contexts.length = 0 then "No contexts found in kubeconfig\n"
        else String.join ((rangeOrder o.handlerSeed config.Contexts).map
          (contextEntryText currentCtx))
      let customPath := GetCustomKubeconfigPath s2
      let footer :=
        if customPath ≠ "" then "\nUsing custom kubeconfig: " ++ customPath ++ "\n"
        else "\nUsing default kubeconfig path\n"
      (Except.ok (header ++ body ++ footer), s2, w2)

/-- Source function `switchContextInternal`. -/
def switchContextInternal (o : Oracle) (contextName : String) (s : Vars) (w : World) :
    Except String String × Vars × World :=
  match GetKubeConfig s w with
  | (Except.error err, w1) => (Except.error err, s, w1)
  | (Except.ok config, w1) =>
    if !hasKey config.Contexts contextName then
      (Except.error ("context '" ++ contextName ++ "' does not exist in kubeconfig"), s, w1)
    else
      match GetCurrentContext o s w1 with
      | (Except.error err, s2, w2) => (Except.error err, s2, w2)
      | (Except.ok currentCtx, s2, w2) =>
        if currentCtx = contextName then
          (Except.ok ("Already using context '" ++ contextName ++ "'"), s2, w2)
        else
          match ModifyConfig o (GetCustomKubeconfigPath s2)
              { config with CurrentContext := contextName } w2 with
          | (Except.error err, w3) =>
            (Except.error ("failed to modify kubeconfig: " ++ err), s2, w3)
          | (Except.ok _, w3) =>
            (Except.ok ("Switched to context '" ++ contextName ++ "'"),
              ClearClientCache (SetCurrentContext contextName s2), w3)

/-- Tool handler `getCurrentContext`: the text it returns, or the error. -/
def getCurrentContext (o : Oracle) (s : Vars) (w : World) :
    Except String String × Vars × World :=
  match GetCurrentContext o s w with
  | (Except.error err, s1, w1) => (Except.error err, s1, w1)
  | (Except.ok currentCtx, s1, w1) => (Except.ok ("Current context: " ++ currentCtx), s1, w1)

/-! ## Sequences of operations -/

/-- One call into the subsystem, with the outcomes the environment gives it. -/
inductive Op where
  | setKubeconfigPath (o : Oracle) (kubeconfigPath : String)
  | getCurrentContext (o : Oracle)
  | listContexts (o : Oracle)
  | switchContext (o : Oracle) (contextName : String)
  | getKubeClient (o : Oracle)
  | getKruiseClient (o : Oracle)
  | getRESTConfig (o : Oracle)

/-- State after one operation; the result of the call is dropped. -/
def applyOp (op : Op) (sw : Vars × World) : Vars × World :=
  match op with
  | Op.setKubeconfigPath o p => (setKubeconfigPathInternal o p sw.1 sw.2).2
  | Op.getCurrentContext o => (getCurrentContext o sw.1 sw.2).2
  | Op.listContexts o => (listContextsInternal o sw.1 sw.2).2
  | Op.switchContext o n => (switchContextInternal o n sw.1 sw.2).2
  | Op.getKubeClient o => (GetKubeClient o sw.1 sw.2).2
  | Op.getKruiseClient o => (GetKruiseClient o sw.1 sw.2).2
  | Op.getRESTConfig o => (GetRESTConfig o sw.1 sw.2).2

/-- State after a sequence of operations, first operation first. -/
def runOps (ops : List Op) (sw : Vars × World) : Vars × World :=
  ops.foldl (fun acc op => applyOp op acc) sw

/-! ## Sample documents and environments -/

/-- A valid document: one cluster, one user, contexts `a` and `b`, current context `a`. -/
def docAB : Config :=
  { Clusters := [("c1", { Server := "https://c1" })],
    AuthInfos := [("u1", { Token := "t1" })],
    Contexts := [("a", { Cluster := "c1", AuthInfo := "u1", Namespace := "" }),
                 ("b", { Cluster := "c1", AuthInfo := "u1", Namespace := "" })],
    CurrentContext := "a" }

/-- An environment whose default kubeconfig is `d` and that has no other file. -/
def worldOf (d : FileState) : World :=
  { defaultFile := d, files := fun _ => FileState.absent, trace := [], nextId := 0 }

/-- An oracle under which every library call succeeds and map iteration starts at
entry `seed`. -/
def okOracle (seed : Nat) : Oracle :=
  { rangeSeed := seed, handlerSeed := seed, modifyConfigErr := none,
    clientConfigErr := none, newForConfigErr := none }

/-- An oracle under which `ModifyConfig` fails and everything else succeeds. -/
def persistFailOracle : Oracle :=
  { rangeSeed := 0, handlerSeed := 0, modifyConfigErr := some "permission denied",
    clientConfigErr := none, newForConfigErr := none }

/-- A valid document with an empty current context whose contexts are named `""` and `a`. -/
def docEmptyName : Config :=
  { Clusters := [("c1", { Server := "https://c1" }), ("c2", { Server := "https://c2" })],
    AuthInfos := [("u1", { Token := "t1" }), ("u2", { Token := "t2" })],
    Contexts := [("", { Cluster := "c1", AuthInfo := "u1", Namespace := "" }),
                 ("a", { Cluster := "c2", AuthInfo := "u2", Namespace := "" })],
    CurrentContext := "" }

/-! ## Cache coherency -/

/-- Every cached client was built from the current configuration location and the
current `currentContext`. -/
def cacheCoherent (s : Vars) : Prop :=
  (∀ h ∈ s.clientsetPointer,
    h.path = s.customKubeconfigPath ∧ h.context = s.currentContext) ∧
  (∀ h ∈ s.kruiseClientPointer,
    h.path = s.customKubeconfigPath ∧ h.context = s.currentContext)

/-- Every cached client was built from the current configuration location, and from
the current `currentContext` or from the empty context name. -/
def cacheCoherentUpToUnresolved (s : Vars) : Prop :=
  (∀ h ∈ s.clientsetPointer,
    h.path = s.customKubeconfigPath ∧ (h.context = s.currentContext ∨ h.context = "")) ∧
  (∀ h ∈ s.kruiseClientPointer,
    h.path = s.customKubeconfigPath ∧ (h.context = s.currentContext ∨ h.context = ""))

/-! ## The two client getters, by kind, and the probes on the log -/

/-- The getter of a client kind. -/
def getClient (k : Kind) (o : Oracle) (s : Vars) (w : World) :
    Except String Client × Vars × World :=
  match k with
  | Kind.core => GetKubeClient o s w
  | Kind.workload => GetKruiseClient o s w

/-- The cache slot of a client kind. -/
def slotOf (k : Kind) (s : Vars) : Option Client :=
  match k with
  | Kind.core => s.clientsetPointer
  | Kind.workload => s.kruiseClientPointer

/-- The other client kind. -/
def otherKind (k : Kind) : Kind :=
  match k with
  | Kind.core => Kind.workload
  | Kind.workload => Kind.core

/-- Whether a library call belongs to the construction of a client. -/
def isConstruction (e : Event) : Bool :=
  match e with
  | Event.clientConfig _ _ => true
  | Event.newForConfig _ _ _ => true
  | _ => false

/-- The construction calls of a log, in order. -/
def constructionCalls (w : World) : List Event :=
  w.trace.filter isConstruction

/-- Whether a library call reads a configuration document. -/
def isDocumentLoad (e : Event) : Bool :=
  match e with
  | Event.readFile _ => true
  | Event.loadFromFile _ => true
  | Event.getStartingConfig _ => true
  | _ => false

/-- The document reads of a log, in order. -/
def documentLoads (w : World) : List Event :=
  w.trace.filter isDocumentLoad

/-- Environment left by a successful construction that started in `w1`. -/
def afterConstruction (k : Kind) (path c : String) (w1 : World) : World :=
  { ((w1.log (Event.clientConfig path c)).log (Event.newForConfig k path c)) with
    nextId := w1.nextId + 1 }

/-! ## Further sample states and environments -/

/-- The client a process running inside a cluster caches for the core API when no
kubeconfig exists. -/
def cachedCore : Client :=
  { kind := Kind.core, path := "", context := "", id := 0 }

/-- The client cached for the workload API in the same situation. -/
def cachedWorkload : Client :=
  { kind := Kind.workload, path := "", context := "", id := 1 }

/-- Both slots filled while `currentContext` is still empty. -/
def bothCached : Vars :=
  { currentContext := "", customKubeconfigPath := "",
    clientsetPointer := some cachedCore, kruiseClientPointer := some cachedWorkload }

/-- An environment whose default kubeconfig cannot be parsed. -/
def brokenWorld : World :=
  { defaultFile := FileState.malformed "yaml: line 1: did not find expected key",
    files := fun _ => FileState.absent, trace := [], nextId := 2 }

/-- An oracle under which the client constructor fails and everything else succeeds. -/
def constructorFailOracle : Oracle :=
  { rangeSeed := 0, handlerSeed := 0, modifyConfigErr := none,
    clientConfigErr := none, newForConfigErr := some "unable to load root certificates" }

/-- Both slots filled for the resolved context `a`. -/
def resolvedCached : Vars :=
  { currentContext := "a", customKubeconfigPath := "",
    clientsetPointer := some { kind := Kind.core, path := "", context := "a", id := 0 },
    kruiseClientPointer :=
      some { kind := Kind.workload, path := "", context := "a", id := 1 } }

/-- The environment of `resolvedCached`: `docAB` as default kubeconfig, two clients
allocated so far. -/
def worldAfterTwo : World :=
  { defaultFile := FileState.doc docAB, files := fun _ => FileState.absent, trace := [],
    nextId := 2 }

/-- A document with a cluster and a user but no context and no current context. -/
def docNoContext : Config :=
  { Clusters := [("c1", { Server := "https://c1" })],
    AuthInfos := [("u1", { Token := "t1" })],
    Contexts := [],
    CurrentContext := "" }

/-! ## Probes and samples for the context tools -/

/-- Whether a library call writes a configuration document. -/
def isPersist (e : Event) : Bool :=
  match e with
  | Event.modifyConfig _ _ => true
  | _ => false

/-- The persist calls of a log, in order. -/
def persistCalls (w : World) : List Event :=
  w.trace.filter isPersist

/-- A valid document with contexts `a` and `b` and an empty current context. -/
def docNoCurrent : Config :=
  { Clusters := [("c1", { Server := "https://c1" }), ("c2", { Server := "https://c2" })],
    AuthInfos := [("u1", { Token := "t1" }), ("u2", { Token := "t2" })],
    Contexts := [("a", { Cluster := "c1", AuthInfo := "u1", Namespace := "" }),
                 ("b", { Cluster := "c2", AuthInfo := "u2", Namespace := "" })],
    CurrentContext := "" }

/-- A document that fails `isValidConfig`: context `a` is declared and current, but there
is no cluster. -/
def docNoCluster : Config :=
  { Clusters := [],
    AuthInfos := [("u1", { Token := "t1" })],
    Contexts := [("a", { Cluster := "c1", AuthInfo := "u1", Namespace := "" })],
    CurrentContext := "a" }

/-- An environment with no default kubeconfig and the single file `f` at `path`. -/
def worldWithFile (path : String) (f : FileState) : World :=
  { defaultFile := FileState.absent,
    files := fun p => if p = path then f else FileState.absent,
    trace := [], nextId := 0 }

/-- Package variables after `setKubeconfigPathInternal` has stored the path, reset the
context, cleared the cache and resolved the context from the document `D`. -/
def resolvedAt (o : Oracle) (path : String) (D : Config) : Vars :=
  adoptFirstContext o.rangeSeed D
    { currentContext := D.CurrentContext, customKubeconfigPath := path,
      clientsetPointer := none, kruiseClientPointer := none }

/-- Text returned by a successful `setKubeconfigPathInternal`. -/
def pathSetText (path ctx : String) : String :=
  "Kubeconfig path has been set to " ++ path ++ ", current context: " ++ ctx

/-! ## `biz/format_util.go`: pods -/

/-- A `metav1.Time`, to the second. -/
structure Time where
  Year : Nat
  Month : Nat
  Day : Nat
  Hour : Nat
  Minute : Nat
  Second : Nat
  deriving DecidableEq, Repr

/-- A number in at least `width` decimal digits, padded with zeros. -/
def zeroPad (width n : Nat) : String :=
  String.mk (List.replicate (width - (toString n).length) '0') ++ toString n

/-- Library call `t.Format("2006-01-02 15:04:05")`. -/
def Time.Format (t : Time) : String :=
  zeroPad 4 t.Year ++ "-" ++ zeroPad 2 t.Month ++ "-" ++ zeroPad 2 t.Day ++ " "
    ++ zeroPad 2 t.Hour ++ ":" ++ zeroPad 2 t.Minute ++ ":" ++ zeroPad 2 t.Second

/-- Type `corev1.ContainerStateWaiting`. -/
structure ContainerStateWaiting where
  Reason : String
  deriving DecidableEq, Repr

/-- Type `corev1.ContainerStateRunning`. -/
structure ContainerStateRunning where
  StartedAt : Option Time
  deriving DecidableEq, Repr

/-- Type `corev1.ContainerStateTerminated`. -/
structure ContainerStateTerminated where
  ExitCode : Int
  Reason : String
  deriving DecidableEq, Repr

/-- Type `corev1.ContainerState`: three pointers, `none` for nil. -/
structure ContainerState where
  Waiting : Option ContainerStateWaiting
  Running : Option ContainerStateRunning
  Terminated : Option ContainerStateTerminated
  deriving DecidableEq, Repr

/-- Type `corev1.ContainerStatus`. -/
structure ContainerStatus where
  Name : String
  Ready : Bool
  State : ContainerState
  deriving DecidableEq, Repr

/-- Type `corev1.PodSpec`, reduced to the container names. -/
structure PodSpec where
  InitContainers : List String
  Containers : List String
  deriving DecidableEq, Repr

/-- Type `corev1.PodStatus`. `Phase` is the string of `corev1.PodPhase`. -/
structure PodStatus where
  Phase : String
  InitContainerStatuses : List ContainerStatus
  ContainerStatuses : List ContainerStatus
  StartTime : Option Time
  PodIP : String
  deriving DecidableEq, Repr

/-- Type `corev1.Pod`. -/
structure Pod where
  Namespace : String
  Name : String
  DeletionTimestamp : Option Time
  Spec : PodSpec
  Status : PodStatus
  deriving DecidableEq, Repr

/-- The condition `s.Waiting != nil && s.Waiting.Reason != ""`. -/
def hasWaitingReason (state : ContainerState) : Bool :=
  match state.Waiting with
  | some waiting => waiting.Reason != ""
  | none => false

/-- The condition `s.Terminated != nil && s.Terminated.Reason != ""`. -/
def hasTerminatedReason (state : ContainerState) : Bool :=
  match state.Terminated with
  | some terminated => terminated.Reason != ""
  | none => false

/-- The expression `s.Waiting.Reason`, read where `s.Waiting` is known not to be nil. -/
def waitingReasonOf (state : ContainerState) : String :=
  match state.Waiting with
  | some waiting => waiting.Reason
  | none => ""

/-- The expression `s.Terminated.Reason`, read where `s.Terminated` is known not to be
nil. -/
def terminatedReasonOf (state : ContainerState) : String :=
  match state.Terminated with
  | some terminated => terminated.Reason
  | none => ""

/-- The loop over `pod.Status.InitContainerStatuses` of `GetPodStatus` (lines 169-180),
entered with index `i`: the value it returns, or `none` when it runs to the end. -/
def initContainerLoop (total : Nat) : Nat → List ContainerStatus → Option String
  | _, [] => none
  | i, status :: rest =>
    if hasWaitingReason status.State then
      some ("Init:" ++ waitingReasonOf status.State)
    else if hasTerminatedReason status.State then
      some ("Init:" ++ terminatedReasonOf status.State)
    else if status.State.Terminated.isNone || terminatedReasonOf status.State == "" then
      some ("Init:" ++ toString i ++ "/" ++ toString total)
    else
      initContainerLoop total (i + 1) rest

/-- The local variables of the loop over `pod.Status.ContainerStatuses` (lines 183-187). -/
structure ContainerScan where
  hasRunning : Bool
  waiting : Bool
  waitingReason : String
  terminated : Bool
  terminatedReason : String
  deriving DecidableEq, Repr

/-- One iteration of the loop over `pod.Status.ContainerStatuses` (lines 190-200). -/
def containerScanStep (acc : ContainerScan) (status : ContainerStatus) : ContainerScan :=
  let acc1 := if status.State.Running.isSome then { acc with hasRunning := true } else acc
  let acc2 :=
    if hasWaitingReason status.State then
      { acc1 with waiting := true, waitingReason := waitingReasonOf status.State }
    else acc1
  if hasTerminatedReason status.State then
    { acc2 with terminated := true, terminatedReason := terminatedReasonOf status.State }
  else acc2

/-- The loop over `pod.Status.ContainerStatuses` (lines 183-201). -/
def containerScan (statuses : List ContainerStatus) : ContainerScan :=
  statuses.foldl containerScanStep
    { hasRunning := false, waiting := false, waitingReason := "", terminated := false,
      terminatedReason := "" }

/-- Source function `GetPodStatus`. -/
def GetPodStatus (pod : Pod) : String :=
  if pod.DeletionTimestamp.isSome then
    "Terminating"
  else if pod.Status.Phase = "Failed" ∨ pod.Status.Phase = "Succeeded" then
    pod.Status.Phase
  else if pod.Status.Phase = "Running" ∧ pod.Status.ContainerStatuses.all (fun c => c.Ready) then
    pod.Status.Phase
  else
    match initContainerLoop pod.Spec.InitContainers.length 0 pod.Status.InitContainerStatuses with
    | some result => result
    | none =>
      let scan := containerScan pod.Status.ContainerStatuses
      if scan.waiting then scan.waitingReason
      else if scan.terminated then scan.terminatedReason
      else if scan.hasRunning ∧ pod.Status.Phase = "Running" then "Running,NotReady"
      else pod.Status.Phase

/-- The panic of the Go runtime on a method call through a nil pointer. -/
def nilPointerPanic : String :=
  "panic: runtime error: invalid memory address or nil pointer dereference"

/-- One iteration of the loop of `FormatPodsTable` (lines 126-136): the row appended to
the builder. `pod.Status.StartTime` is a pointer and `Format` is called through it. -/
def podsTableRow (pod : Pod) : Except String String :=
  let status := GetPodStatus pod
  match pod.Status.StartTime with
  | none => Except.error nilPointerPanic
  | some startTime =>
    Except.ok (pod.Namespace ++ "\t" ++ pod.Name ++ "\t" ++ status ++ "\t"
      ++ startTime.Format ++ "\t" ++ pod.Status.PodIP ++ "\n")

/-- The loop of `FormatPodsTable` over the pods, with the builder contents `sb`. -/
def podsTableRows : String → List Pod → Except String String
  | sb, [] => Except.ok sb
  | sb, pod :: rest =>
    match podsTableRow pod with
    | Except.error err => Except.error err
    | Except.ok row => podsTableRows (sb ++ row) rest

/-- Source function `FormatPodsTable`; a panic is the `error` result. -/
def FormatPodsTable (pods : List Pod) : Except String String :=
  if pods.length = 0 then
    Except.ok "No resources found"
  else
    podsTableRows "NAMESPACE\tNAME\tSTATUS\tSTART TIME\tIP\n" pods

/-! ## Sample pods -/

/-- A container state with nothing set. -/
def noState : ContainerState :=
  { Waiting := none, Running := none, Terminated := none }

/-- A pending pod with two init containers in its spec: the first has completed, the
second is running. -/
def podInitOneOfTwo : Pod :=
  { Namespace := "prod", Name := "web-0", DeletionTimestamp := none,
    Spec := { InitContainers := ["init-db", "init-cache"], Containers := ["web"] },
    Status :=
      { Phase := "Pending",
        InitContainerStatuses :=
          [{ Name := "init-db", Ready := true,
             State := { noState with Terminated := some { ExitCode := 0, Reason := "Completed" } } },
           { Name := "init-cache", Ready := false,
             State := { noState with Running := some { StartedAt := none } } }],
        ContainerStatuses :=
          [{ Name := "web", Ready := false,
             State := { noState with Waiting := some { Reason := "PodInitializing" } } }],
        StartTime := some { Year := 2025, Month := 3, Day := 9, Hour := 8, Minute := 5,
                            Second := 0 },
        PodIP := "10.0.0.7" } }

/-- A pending pod that has not been scheduled: no start time, no statuses. -/
def podUnscheduled : Pod :=
  { Namespace := "prod", Name := "web-1", DeletionTimestamp := none,
    Spec := { InitContainers := [], Containers := ["web"] },
    Status := { Phase := "Pending", InitContainerStatuses := [], ContainerStatuses := [],
                StartTime := none, PodIP := "" } }

/-- A running pod with two containers: one terminated with `Error`, then one waiting
with `CrashLoopBackOff`. -/
def podCrashLoop : Pod :=
  { Namespace := "prod", Name := "web-2", DeletionTimestamp := none,
    Spec := { InitContainers := [], Containers := ["web", "sidecar"] },
    Status :=
      { Phase := "Running",
        InitContainerStatuses := [],
        ContainerStatuses :=
          [{ Name := "web", Ready := false,
             State := { noState with Waiting := some { Reason := "CrashLoopBackOff" } } },
           { Name := "sidecar", Ready := false,
             State := { noState with Terminated := some { ExitCode := 1, Reason := "Error" } } }],
        StartTime := some { Year := 2025, Month := 3, Day := 9, Hour := 8, Minute := 5,
                            Second := 0 },
        PodIP := "10.0.0.9" } }

/-! ## The status of a pod without init containers, as a priority list -/

/-- The last container status that has a non-empty waiting reason, if any. -/
def lastWithWaitingReason (statuses : List ContainerStatus) : Option ContainerStatus :=
  (statuses.filter (fun c => hasWaitingReason c.State)).getLast?

/-- The last container status that has a non-empty terminated reason, if any. -/
def lastWithTerminatedReason (statuses : List ContainerStatus) : Option ContainerStatus :=
  (statuses.filter (fun c => hasTerminatedReason c.State)).getLast?

/-- The status of a pod by priority: the waiting reason of the last container status that
has one; otherwise the terminated reason of the last container status that has one;
otherwise "Running,NotReady" when the phase is Running and some container is running;
otherwise the phase. -/
def podStatusByPriority (pod : Pod) : String :=
  match lastWithWaitingReason pod.Status.ContainerStatuses with
  | some c => waitingReasonOf c.State
  | none =>
    match lastWithTerminatedReason pod.Status.ContainerStatuses with
    | some c => terminatedReasonOf c.State
    | none =>
      if pod.Status.Phase = "Running" ∧
          pod.Status.ContainerStatuses.any (fun c => c.State.Running.isSome) then
        "Running,NotReady"
      else pod.Status.Phase

/-- The number of init containers that have completed: terminated with exit code 0. -/
def completedInitContainers (pod : Pod) : Nat :=
  (pod.Status.InitContainerStatuses.filter (fun c =>
    match c.State.Terminated with
    | some terminated => terminated.ExitCode == 0
    | none => false)).length

/-! ## The cluster API as the resource handlers use it -/

/-- Type `corev1.NodeSpec`. -/
structure NodeSpec where
  PodCIDR : String
  ProviderID : String
  Unschedulable : Bool
  Taints : List String
  deriving DecidableEq, Repr

/-- Type `corev1.Node`. -/
structure Node where
  Name : String
  ResourceVersion : String
  Labels : List (String × String)
  Spec : NodeSpec
  KubeletVersion : String
  deriving DecidableEq, Repr

/-- An OpenKruise `StatefulSet` or `CloneSet`; `Replicas` is the pointer
`Spec.Replicas`. -/
structure Workload where
  Namespace : String
  Name : String
  ResourceVersion : String
  Replicas : Option Int
  deriving DecidableEq, Repr

/-- Requests sent to the cluster through a client, as the handlers issue them. -/
inductive ApiCall where
  | deletePod (clientset : Client) (ns podName : String) (gracePeriodSeconds : Option Int)
  | execPod (clientset : Client) (restConfig : RestConfig) (ns podName : String)
      (command : List String)
  | getNode (clientset : Client) (nodeName : String)
  | updateNode (clientset : Client) (node : Node)
  | getStatefulSet (client : Client) (ns name : String)
  | updateStatefulSet (client : Client) (ns : String) (obj : Workload)
  | getCloneSet (client : Client) (ns name : String)
  | updateCloneSet (client : Client) (ns : String) (obj : Workload)
  deriving DecidableEq, Repr

/-- What the cluster answers to the requests of one handler call. -/
structure ApiOracle where
  /-- Error of `Pods(ns).Delete`, if it fails. -/
  deletePodErr : Option String
  /-- Error of `remotecommand.NewSPDYExecutor`, if it fails. -/
  spdyExecutorErr : Option String
  /-- Error of `exec.StreamWithContext`, if it fails. -/
  streamErr : Option String
  /-- Bytes the command wrote to standard output. -/
  stdout : String
  /-- Bytes the command wrote to standard error. -/
  stderr : String
  /-- Result of `Nodes().Get`. -/
  getNode : Except String Node
  /-- Error of `Nodes().Update`, if it fails. -/
  updateNodeErr : Option String
  /-- Result of `StatefulSets(ns).Get` or `CloneSets(ns).Get`. -/
  getWorkload : Except String Workload
  /-- Error of `StatefulSets(ns).Update` or `CloneSets(ns).Update`, if it fails. -/
  updateWorkloadErr : Option String

/-- The result of a tool handler: the text or the error, the requests issued, and the
package variables and environment it leaves. -/
abbrev HandlerResult := Except String String × List ApiCall × Vars × World

/-! ## `biz/pod/pod_handler.go` -/

/-- Source type `deletePodParams`. -/
structure deletePodParams where
  Namespace : String
  PodName : String
  Force : Bool
  deriving DecidableEq, Repr

/-- Source type `execCommandParams`. -/
structure execCommandParams where
  Context : String
  Namespace : String
  PodName : String
  Command : String
  deriving DecidableEq, Repr

/-- Source function `PodHandler.deletePod`. -/
def PodHandler.deletePod (api : ApiOracle) (clientset : Client) (ns podName : String)
    (force : Bool) : Except String Unit × List ApiCall :=
  let gracePeriodSeconds : Option Int := if force then some 0 else none
  (match api.deletePodErr with
    | some err => Except.error err
    | none => Except.ok (),
   [ApiCall.deletePod clientset ns podName gracePeriodSeconds])

/-- Source function `PodHandler.delete`; `parsed` is the result of `biz.ParseParams`. -/
def PodHandler.delete (o : Oracle) (api : ApiOracle) (parsed : Except String deletePodParams)
    (s : Vars) (w : World) : HandlerResult :=
  match parsed with
  | Except.error err => (Except.error err, [], s, w)
  | Except.ok params =>
    match GetKubeClient o s w with
    | (Except.error err, s1, w1) => (Except.error err, [], s1, w1)
    | (Except.ok clientset, s1, w1) =>
      let (_, calls) := PodHandler.deletePod api clientset params.Namespace params.PodName
        params.Force
      (Except.ok ("Pod " ++ params.PodName ++ " in namespace " ++ params.Namespace
        ++ " successfully deleted"), calls, s1, w1)

/-- Source function `PodHandler.execCommandInPod`; `o` is the oracle of its
`GetRESTConfig` call. -/
def PodHandler.execCommandInPod (o : Oracle) (api : ApiOracle) (clientsetInterface : Client)
    (ns podName command : String) (s : Vars) (w : World) : HandlerResult :=
  match GetRESTConfig o s w with
  | (Except.error err, s1, w1) =>
    (Except.error ("failed to get REST config: " ++ err), [], s1, w1)
  | (Except.ok restConfig, s1, w1) =>
    match api.spdyExecutorErr with
    | some err => (Except.error ("failed to create SPDY executor: " ++ err), [], s1, w1)
    | none =>
      let call := ApiCall.execPod clientsetInterface restConfig ns podName
        ["/bin/sh", "-c", command]
      match api.streamErr with
      | some err =>
        (Except.error ("command execution failed: " ++ err ++ ", stderr: " ++ api.stderr),
          [call], s1, w1)
      | none =>
        let result := api.stdout
        let result :=
          if api.stderr.length > 0 then
            (if result ≠ "" then result ++ "\n" else result) ++ "STDERR: " ++ api.stderr
          else result
        (Except.ok result, [call], s1, w1)

/-- Source function `PodHandler.execCommand`; `parsed` is the result of
`biz.ParseParams`, `o` the oracle of `GetKubeClient`, `oRest` that of `GetRESTConfig`. -/
def PodHandler.execCommand (o oRest : Oracle) (api : ApiOracle)
    (parsed : Except String execCommandParams) (s : Vars) (w : World) : HandlerResult :=
  match parsed with
  | Except.error err => (Except.error err, [], s, w)
  | Except.ok params =>
    match GetKubeClient o s w with
    | (Except.error err, s1, w1) => (Except.error err, [], s1, w1)
    | (Except.ok kubeClient, s1, w1) =>
      PodHandler.execCommandInPod oRest api kubeClient params.Namespace params.PodName
        params.Command s1 w1

/-! ## `biz/node/node_handler.go` -/

/-- Source type `NodeParams`. -/
structure NodeParams where
  NodeName : String
  deriving DecidableEq, Repr

/-- Source function `NodeHandler.markNodeAsUnschedulableState`. -/
def NodeHandler.markNodeAsUnschedulableState (api : ApiOracle) (clientset : Client)
    (nodeName : String) (unscheduleable : Bool) : Except String Unit × List ApiCall :=
  match api.getNode with
  | Except.error err => (Except.error err, [ApiCall.getNode clientset nodeName])
  | Except.ok node =>
    if node.Spec.Unschedulable = unscheduleable then
      (Except.error ("node " ++ nodeName ++ " is already marked unscheduable:"
        ++ toString unscheduleable), [ApiCall.getNode clientset nodeName])
    else
      let newNode : Node := { node with Spec := { node.Spec with Unschedulable := unscheduleable } }
      match api.updateNodeErr with
      | some err =>
        (Except.error err,
          [ApiCall.getNode clientset nodeName, ApiCall.updateNode clientset newNode])
      | none =>
        (Except.ok (),
          [ApiCall.getNode clientset nodeName, ApiCall.updateNode clientset newNode])

/-- Source function `NodeHandler.cordonNode`. -/
def NodeHandler.cordonNode (o : Oracle) (api : ApiOracle) (parsed : Except String NodeParams)
    (s : Vars) (w : World) : HandlerResult :=
  match parsed with
  | Except.error err => (Except.error err, [], s, w)
  | Except.ok params =>
    match GetKubeClient o s w with
    | (Except.error err, s1, w1) => (Except.error err, [], s1, w1)
    | (Except.ok clientset, s1, w1) =>
      match NodeHandler.markNodeAsUnschedulableState api clientset params.NodeName true with
      | (Except.error err, calls) => (Except.error err, calls, s1, w1)
      | (Except.ok _, calls) =>
        (Except.ok ("Node " ++ params.NodeName ++ " has been marked as unschedulable"),
          calls, s1, w1)

/-- Source function `NodeHandler.uncordonNode`. -/
def NodeHandler.uncordonNode (o : Oracle) (api : ApiOracle)
    (parsed : Except String NodeParams) (s : Vars) (w : World) : HandlerResult :=
  match parsed with
  | Except.error err => (Except.error err, [], s, w)
  | Except.ok params =>
    match GetKubeClient o s w with
    | (Except.error err, s1, w1) => (Except.error err, [], s1, w1)
    | (Except.ok clientset, s1, w1) =>
      match NodeHandler.markNodeAsUnschedulableState api clientset params.NodeName false with
      | (Except.error err, calls) => (Except.error err, calls, s1, w1)
      | (Except.ok _, calls) =>
        (Except.ok ("Node " ++ params.NodeName ++ " has been marked as schedulable"),
          calls, s1, w1)

/-! ## `biz/kruise/kruise_handler.go`: scaling -/

/-- Source type `KruiseScaleParams`. -/
structure KruiseScaleParams where
  ResourceType : String
  Namespace : String
  ResourceName : String
  Replicas : String
  deriving DecidableEq, Repr

/-- Library call `strconv.Atoi` on a platform whose `int` has 64 bits: an optional sign,
then one or more decimal digits, and a value that fits. -/
def Atoi (s : String) : Except String Int :=
  let signed : Bool × List Char :=
    match s.data with
    | '-' :: digits => (true, digits)
    | '+' :: digits => (false, digits)
    | digits => (false, digits)
  if signed.2.isEmpty || !signed.2.all Char.isDigit then
    Except.error ("strconv.Atoi: parsing \"" ++ s ++ "\": invalid syntax")
  else
    let magnitude : Nat := signed.2.foldl (fun acc c => acc * 10 + (c.toNat - '0'.toNat)) 0
    let n : Int := if signed.1 then -(magnitude : Int) else (magnitude : Int)
    if n < -(2 ^ 63 : Int) ∨ n > (2 ^ 63 : Int) - 1 then
      Except.error ("strconv.Atoi: parsing \"" ++ s ++ "\": value out of range")
    else
      Except.ok n

/-- Go's conversion `int32(n)` of an `int`: the low 32 bits, read as a signed number. -/
def int32 (n : Int) : Int :=
  (n + 2 ^ 31) % 2 ^ 32 - 2 ^ 31

/-- Source function `KruiseHandler.scaleAdvancedStatefulSet`. -/
def KruiseHandler.scaleAdvancedStatefulSet (o : Oracle) (api : ApiOracle) (ns name : String)
    (replicas : Int) (s : Vars) (w : World) : HandlerResult :=
  match GetKruiseClient o s w with
  | (Except.error err, s1, w1) => (Except.error err, [], s1, w1)
  | (Except.ok kruiseClient, s1, w1) =>
    match api.getWorkload with
    | Except.error err =>
      (Except.error err, [ApiCall.getStatefulSet kruiseClient ns name], s1, w1)
    | Except.ok ast =>
      let calls := [ApiCall.getStatefulSet kruiseClient ns name,
        ApiCall.updateStatefulSet kruiseClient ns { ast with Replicas := some replicas }]
      match api.updateWorkloadErr with
      | some err => (Except.error err, calls, s1, w1)
      | none =>
        (Except.ok ("Successfully scaled AdvancedStatefulSet " ++ name ++ " in namespace "
          ++ ns ++ " to " ++ toString replicas ++ " replicas"), calls, s1, w1)

/-- Source function `KruiseHandler.scaleCloneSet`. -/
def KruiseHandler.scaleCloneSet (o : Oracle) (api : ApiOracle) (ns name : String)
    (replicas : Int) (s : Vars) (w : World) : HandlerResult :=
  match GetKruiseClient o s w with
  | (Except.error err, s1, w1) => (Except.error err, [], s1, w1)
  | (Except.ok kruiseClient, s1, w1) =>
    match api.getWorkload with
    | Except.error err =>
      (Except.error err, [ApiCall.getCloneSet kruiseClient ns name], s1, w1)
    | Except.ok cloneSet =>
      let calls := [ApiCall.getCloneSet kruiseClient ns name,
        ApiCall.updateCloneSet kruiseClient ns { cloneSet with Replicas := some replicas }]
      match api.updateWorkloadErr with
      | some err => (Except.error err, calls, s1, w1)
      | none =>
        (Except.ok ("Successfully scaled CloneSet " ++ name ++ " in namespace "
          ++ ns ++ " to " ++ toString replicas ++ " replicas"), calls, s1, w1)

/-- The `switch params.ResourceType` that `scaleResource` and `scale` share, with the
namespace already defaulted. -/
def KruiseHandler.scaleByType (o : Oracle) (api : ApiOracle) (resourceType ns name : String)
    (replicas : Int) (s : Vars) (w : World) : HandlerResult :=
  if resourceType = "advancedstatefulset" ∨ resourceType = "advancedstatefulsets"
      ∨ resourceType = "asts" then
    KruiseHandler.scaleAdvancedStatefulSet o api ns name replicas s w
  else if resourceType = "cloneset" ∨ resourceType = "clonesets" then
    KruiseHandler.scaleCloneSet o api ns name replicas s w
  else
    (Except.error ("unsupported resource type: " ++ resourceType), [], s, w)

/-- Source function `KruiseHandler.scaleResource`. -/
def KruiseHandler.scaleResource (o : Oracle) (api : ApiOracle)
    (parsed : Except String KruiseScaleParams) (s : Vars) (w : World) : HandlerResult :=
  match parsed with
  | Except.error err => (Except.error err, [], s, w)
  | Except.ok params =>
    let ns := if params.Namespace = "" then "default" else params.Namespace
    match Atoi params.Replicas with
    | Except.error err =>
      (Except.error ("could not convert replicas parameter '" ++ params.Replicas
        ++ "' to integer: " ++ err), [], s, w)
    | Except.ok replicasInt =>
      let replicas := int32 replicasInt
      KruiseHandler.scaleByType o api params.ResourceType ns params.ResourceName replicas s w

/-- Source function `KruiseHandler.scale`. -/
def KruiseHandler.scale (o : Oracle) (api : ApiOracle)
    (parsed : Except String KruiseScaleParams) (s : Vars) (w : World) : HandlerResult :=
  match parsed with
  | Except.error err => (Except.error err, [], s, w)
  | Except.ok params =>
    let ns := if params.Namespace = "" then "default" else params.Namespace
    match Atoi params.Replicas with
    | Except.error err =>
      (Except.error ("could not convert replicas parameter '" ++ params.Replicas
        ++ "' to integer: " ++ err), [], s, w)
    | Except.ok replicasInt =>
      let replicas := int32 replicasInt
      KruiseHandler.scaleByType o api params.ResourceType ns params.ResourceName replicas s w

/-! ## Sample requests and cluster answers -/

/-- A node that is schedulable. -/
def nodeA : Node :=
  { Name := "node-a", ResourceVersion := "41", Labels := [("zone", "z1")],
    Spec := { PodCIDR := "10.1.0.0/24", ProviderID := "p-1", Unschedulable := false,
              Taints := ["dedicated"] },
    KubeletVersion := "v1.29.0" }

/-- A cluster in which every request succeeds. -/
def okApi : ApiOracle :=
  { deletePodErr := none, spdyExecutorErr := none, streamErr := none, stdout := "ok",
    stderr := "", getNode := Except.ok nodeA, updateNodeErr := none,
    getWorkload := Except.ok { Namespace := "default", Name := "web", ResourceVersion := "7",
                               Replicas := some 3 },
    updateWorkloadErr := none }

/-- A cluster in which the pod to delete does not exist. -/
def podMissingApi : ApiOracle :=
  { okApi with deletePodErr := some "pods \"web-9\" not found" }

/-! ## Frame lemmas -/

theorem log_defaultFile (w : World) (e : Event) : (w.log e).defaultFile = w.defaultFile := rfl

theorem log_files (w : World) (e : Event) : (w.log e).files = w.files := rfl

theorem log_nextId (w : World) (e : Event) : (w.log e).nextId = w.nextId := rfl

theorem log_trace (w : World) (e : Event) : (w.log e).trace = w.trace ++ [e] := rfl

/-- The library reads only look at the files, not at the log. -/
theorem LoadFromFile_congr (w w1 : World) (path : String) (hf : w1.files = w.files) :
    LoadFromFile w1 path = LoadFromFile w path := by
  simp [LoadFromFile, World.fileAt, hf]

theorem GetStartingConfig_congr (w w1 : World) (path : String)
    (hd : w1.defaultFile = w.defaultFile) (hf : w1.files = w.files) :
    GetStartingConfig w1 path = GetStartingConfig w path := by
  simp [GetStartingConfig, World.fileOf, hd, hf]

/-- `GetKubeConfig` only appends to the log. -/
theorem GetKubeConfig_frame (s : Vars) (w : World) :
    (GetKubeConfig s w).2.defaultFile = w.defaultFile ∧
    (GetKubeConfig s w).2.files = w.files ∧
    (GetKubeConfig s w).2.nextId = w.nextId := by
  unfold GetKubeConfig
  split
  · split
    · exact ⟨rfl, rfl, rfl⟩
    · split <;> exact ⟨rfl, rfl, rfl⟩
  · split <;> exact ⟨rfl, rfl, rfl⟩

/-- The result of `GetKubeConfig` is determined by the path and the files. -/
theorem GetKubeConfig_congr (s s1 : Vars) (w w1 : World)
    (hp : s1.customKubeconfigPath = s.customKubeconfigPath)
    (hd : w1.defaultFile = w.defaultFile) (hf : w1.files = w.files) :
    (GetKubeConfig s1 w1).1 = (GetKubeConfig s w).1 := by
  unfold GetKubeConfig
  rw [hp, LoadFromFile_congr w w1 _ hf, GetStartingConfig_congr w w1 _ hd hf,
    GetStartingConfig_congr w w1 _ hd hf]
  split
  · split
    · rfl
    · split <;> rfl
  · split <;> rfl

theorem adoptFirstContext_frame (seed : Nat) (config : Config) (s : Vars) :
    (adoptFirstContext seed config s).customKubeconfigPath = s.customKubeconfigPath ∧
    (adoptFirstContext seed config s).clientsetPointer = s.clientsetPointer ∧
    (adoptFirstContext seed config s).kruiseClientPointer = s.kruiseClientPointer := by
  unfold adoptFirstContext
  split
  · split <;> exact ⟨rfl, rfl, rfl⟩
  · exact ⟨rfl, rfl, rfl⟩

/-- `GetCurrentContext` returns the memoized context without any library call. -/
theorem GetCurrentContext_resolved (o : Oracle) (s : Vars) (w : World)
    (h : s.currentContext ≠ "") :
    GetCurrentContext o s w = (Except.ok s.currentContext, s, w) := by
  simp [GetCurrentContext, h]

/-- `GetCurrentContext` writes only `currentContext` and only appends to the log. -/
theorem GetCurrentContext_frame (o : Oracle) (s : Vars) (w : World) :
    (GetCurrentContext o s w).2.1.customKubeconfigPath = s.customKubeconfigPath ∧
    (GetCurrentContext o s w).2.1.clientsetPointer = s.clientsetPointer ∧
    (GetCurrentContext o s w).2.1.kruiseClientPointer = s.kruiseClientPointer ∧
    (GetCurrentContext o s w).2.2.defaultFile = w.defaultFile ∧
    (GetCurrentContext o s w).2.2.files = w.files ∧
    (GetCurrentContext o s w).2.2.nextId = w.nextId := by
  have hk := GetKubeConfig_frame s w
  unfold GetCurrentContext
  split
  · simp
  · split
    · rename_i heq
      rw [heq] at hk
      simpa using hk
    · rename_i config w1 heq
      rw [heq] at hk
      have ha := adoptFirstContext_frame o.rangeSeed config
        { s with currentContext := config.CurrentContext }
      exact ⟨ha.1, ha.2.1, ha.2.2, hk⟩

/-- A successful `GetCurrentContext` leaves the returned name in `currentContext`. -/
theorem GetCurrentContext_memo (o : Oracle) (s : Vars) (w : World) (c : String)
    (h : (GetCurrentContext o s w).1 = Except.ok c) :
    (GetCurrentContext o s w).2.1.currentContext = c := by
  unfold GetCurrentContext at h ⊢
  split at h
  · rename_i hne
    simp only [if_pos hne]
    simpa using h
  · rename_i hne
    simp only [if_neg hne]
    split at h
    · simp at h
    · rename_i heq
      simp only [heq]
      simpa using h

/-- A failing `GetCurrentContext` leaves the package variables as they were. -/
theorem GetCurrentContext_error (o : Oracle) (s : Vars) (w : World) (e : String)
    (h : (GetCurrentContext o s w).1 = Except.error e) :
    (GetCurrentContext o s w).2.1 = s := by
  unfold GetCurrentContext at h ⊢
  split
  · rfl
  · split
    · rfl
    · rename_i hne _ _ _ heq
      simp [hne, heq] at h

/-! ## Context switch: claims C1 and C2 -/

/-- After a write the document behind the same `ConfigAccess` is the one written. -/
theorem fileOf_writeDoc (w : World) (path : String) (c : Config) :
    (w.writeDoc path c).fileOf path = FileState.doc c := by
  unfold World.writeDoc World.fileOf
  by_cases h : path = "" <;> simp [h]

/-- When the document loads, resolving the context cannot fail. -/
theorem GetCurrentContext_ok_of_load (o : Oracle) (s : Vars) (w : World) (D : Config)
    (h : (GetKubeConfig s w).1 = Except.ok D) :
    ∃ c, (GetCurrentContext o s w).1 = Except.ok c := by
  unfold GetCurrentContext
  split
  · exact ⟨_, rfl⟩
  · split
    · rename_i heq
      simp [heq] at h
    · exact ⟨_, rfl⟩

/-- Claim C1. When the document loads, `contextName` is one of its contexts, the context
resolved by `GetCurrentContext` is a different one and `ModifyConfig` succeeds, then
`switchContextInternal` returns the text "Switched to context 'contextName'", the
document behind the configuration location has `contextName` as current context,
`currentContext` is `contextName`, and both client slots are empty. -/
theorem switchContextInternal_success (o : Oracle) (s : Vars) (w w1 : World) (D : Config)
    (contextName : String)
    (hload : GetKubeConfig s w = (Except.ok D, w1))
    (hkey : hasKey D.Contexts contextName = true)
    (hdiff : (GetCurrentContext o s w1).1 ≠ Except.ok contextName)
    (hpersist : o.modifyConfigErr = none) :
    (switchContextInternal o contextName s w).1
        = Except.ok ("Switched to context '" ++ contextName ++ "'") ∧
    (∃ d, (switchContextInternal o contextName s w).2.2.fileOf
            (switchContextInternal o contextName s w).2.1.customKubeconfigPath
          = FileState.doc d ∧ d.CurrentContext = contextName) ∧
    (switchContextInternal o contextName s w).2.1.currentContext = contextName ∧
    (switchContextInternal o contextName s w).2.1.clientsetPointer = none ∧
    (switchContextInternal o contextName s w).2.1.kruiseClientPointer = none := by
  have hfr := GetKubeConfig_frame s w
  rw [hload] at hfr
  have hload1 : (GetKubeConfig s w1).1 = Except.ok D := by
    rw [GetKubeConfig_congr s s w w1 rfl hfr.1 hfr.2.1, hload]
  obtain ⟨c, hc⟩ := GetCurrentContext_ok_of_load o s w1 D hload1
  have hne : c ≠ contextName := by
    intro h
    exact hdiff (by rw [hc, h])
  rcases hgc : GetCurrentContext o s w1 with ⟨r, s2, w2⟩
  rw [hgc] at hc
  simp only at hc
  subst hc
  simp only [switchContextInternal, hload, hkey, hgc, ModifyConfig, hpersist]
  simp [hne, ClearClientCache, SetCurrentContext, GetCustomKubeconfigPath]
  exact ⟨_, fileOf_writeDoc _ _ _, rfl⟩

/-- Witness for C1: from the initial state, with `docAB` as default kubeconfig, switching
to `b` succeeds. -/
theorem switchContextInternal_success_witness :
    (switchContextInternal (okOracle 0) "b" Vars.init (worldOf (FileState.doc docAB))).1
        = Except.ok "Switched to context 'b'" ∧
    (∃ d, (switchContextInternal (okOracle 0) "b" Vars.init
            (worldOf (FileState.doc docAB))).2.2.fileOf
            (switchContextInternal (okOracle 0) "b" Vars.init
              (worldOf (FileState.doc docAB))).2.1.customKubeconfigPath
          = FileState.doc d ∧ d.CurrentContext = "b") ∧
    (switchContextInternal (okOracle 0) "b" Vars.init
      (worldOf (FileState.doc docAB))).2.1.currentContext = "b" ∧
    (switchContextInternal (okOracle 0) "b" Vars.init
      (worldOf (FileState.doc docAB))).2.1.clientsetPointer = none ∧
    (switchContextInternal (okOracle 0) "b" Vars.init
      (worldOf (FileState.doc docAB))).2.1.kruiseClientPointer = none :=
  switchContextInternal_success (okOracle 0) Vars.init (worldOf (FileState.doc docAB))
    ((worldOf (FileState.doc docAB)).log (Event.getStartingConfig "")) docAB "b"
    rfl (by decide) (by decide) rfl

/-- Claim C2 as stated fails: from the initial state (`currentContext` unresolved), with
`docAB` as default kubeconfig, switching to the existing context `b` while the write
fails returns an error, yet `currentContext` is `a` afterwards and no longer empty. -/
theorem switchContextInternal_persist_failure_counterexample :
    hasKey docAB.Contexts "b" = true ∧
    (switchContextInternal persistFailOracle "b" Vars.init (worldOf (FileState.doc docAB))).1
      = Except.error "failed to modify kubeconfig: permission denied" ∧
    Vars.init.currentContext = "" ∧
    (switchContextInternal persistFailOracle "b" Vars.init
      (worldOf (FileState.doc docAB))).2.1.currentContext = "a" ∧
    (switchContextInternal persistFailOracle "b" Vars.init
      (worldOf (FileState.doc docAB))).2.1 ≠ Vars.init := by
  decide

/-- Claim C2, amended. When the document loads, `contextName` is one of its contexts, the
resolved context is a different one and `ModifyConfig` fails with `e`, then
`switchContextInternal` returns the error "failed to modify kubeconfig: e"; the
configuration location, both client slots and the files are unchanged; the package
variables are those `GetCurrentContext` left, so they are unchanged when `currentContext`
was already resolved; and `currentContext` is never the target. -/
theorem switchContextInternal_persist_failure (o : Oracle) (s : Vars) (w w1 : World)
    (D : Config) (contextName e : String)
    (hload : GetKubeConfig s w = (Except.ok D, w1))
    (hkey : hasKey D.Contexts contextName = true)
    (hdiff : (GetCurrentContext o s w1).1 ≠ Except.ok contextName)
    (hfail : o.modifyConfigErr = some e) :
    (switchContextInternal o contextName s w).1
        = Except.error ("failed to modify kubeconfig: " ++ e) ∧
    (switchContextInternal o contextName s w).2.1.customKubeconfigPath
        = s.customKubeconfigPath ∧
    (switchContextInternal o contextName s w).2.1.clientsetPointer = s.clientsetPointer ∧
    (switchContextInternal o contextName s w).2.1.kruiseClientPointer
        = s.kruiseClientPointer ∧
    (switchContextInternal o contextName s w).2.1 = (GetCurrentContext o s w1).2.1 ∧
    (s.currentContext ≠ "" → (switchContextInternal o contextName s w).2.1 = s) ∧
    (switchContextInternal o contextName s w).2.1.currentContext ≠ contextName ∧
    (switchContextInternal o contextName s w).2.2.defaultFile = w.defaultFile ∧
    (switchContextInternal o contextName s w).2.2.files = w.files := by
  have hfr := GetKubeConfig_frame s w
  rw [hload] at hfr
  have hload1 : (GetKubeConfig s w1).1 = Except.ok D := by
    rw [GetKubeConfig_congr s s w w1 rfl hfr.1 hfr.2.1, hload]
  obtain ⟨c, hc⟩ := GetCurrentContext_ok_of_load o s w1 D hload1
  have hne : c ≠ contextName := by
    intro h
    exact hdiff (by rw [hc, h])
  have hmemo := GetCurrentContext_memo o s w1 c hc
  have hgf := GetCurrentContext_frame o s w1
  have hres : s.currentContext ≠ "" → (GetCurrentContext o s w1).2.1 = s := by
    intro h
    rw [GetCurrentContext_resolved o s w1 h]
  rcases hgc : GetCurrentContext o s w1 with ⟨r, s2, w2⟩
  rw [hgc] at hc hmemo hgf hres
  simp only at hc hmemo hgf hres
  subst hc
  simp only [switchContextInternal, hload, hkey, ModifyConfig, hfail, hgc]
  simp only [Bool.not_true, Bool.false_eq_true, if_false, if_neg hne, log_defaultFile,
    log_files]
  refine ⟨trivial, hgf.1, hgf.2.1, hgf.2.2.1, trivial, hres, ?_, ?_, ?_⟩
  · rw [hmemo]; exact hne
  · rw [hgf.2.2.2.1]; exact hfr.1
  · rw [hgf.2.2.2.2.1]; exact hfr.2.1

/-- Witness for the amended C2: `currentContext` already resolved to `a`, the write of
the switch to `b` fails. -/
theorem switchContextInternal_persist_failure_witness :
    (switchContextInternal persistFailOracle "b"
        { Vars.init with currentContext := "a" } (worldOf (FileState.doc docAB))).1
      = Except.error "failed to modify kubeconfig: permission denied" ∧
    (switchContextInternal persistFailOracle "b"
        { Vars.init with currentContext := "a" } (worldOf (FileState.doc docAB))).2.1
      = { Vars.init with currentContext := "a" } :=
  have h := switchContextInternal_persist_failure persistFailOracle
    { Vars.init with currentContext := "a" } (worldOf (FileState.doc docAB))
    ((worldOf (FileState.doc docAB)).log (Event.getStartingConfig "")) docAB "b"
    "permission denied" rfl (by decide) (by decide) rfl
  ⟨h.1, h.2.2.2.2.2.1 (by decide)⟩

/-! ## Cache coherency over sequences of operations: claim C3 -/

/-- Claim C3 as stated fails: from the initial state, with `docEmptyName` as default
kubeconfig, `GetKruiseClient` (map iteration starting at the context named `""`) followed
by `GetKubeClient` (iteration starting at `a`) leaves in the workload slot a client built
for the context `""` while `currentContext` is `a`. -/
theorem cacheCoherent_counterexample :
    (runOps [Op.getKruiseClient (okOracle 0), Op.getKubeClient (okOracle 1)]
        (Vars.init, worldOf (FileState.doc docEmptyName))).1
      = { currentContext := "a", customKubeconfigPath := "",
          clientsetPointer := some { kind := Kind.core, path := "", context := "a", id := 1 },
          kruiseClientPointer :=
            some { kind := Kind.workload, path := "", context := "", id := 0 } } ∧
    ¬ cacheCoherent (runOps [Op.getKruiseClient (okOracle 0), Op.getKubeClient (okOracle 1)]
        (Vars.init, worldOf (FileState.doc docEmptyName))).1 := by
  have h : (runOps [Op.getKruiseClient (okOracle 0), Op.getKubeClient (okOracle 1)]
        (Vars.init, worldOf (FileState.doc docEmptyName))).1
      = { currentContext := "a", customKubeconfigPath := "",
          clientsetPointer := some { kind := Kind.core, path := "", context := "a", id := 1 },
          kruiseClientPointer :=
            some { kind := Kind.workload, path := "", context := "", id := 0 } } := by
    decide
  refine ⟨h, ?_⟩
  rw [h]
  intro hc
  have := (hc.2 _ rfl).2
  revert this
  decide

/-- A state with both slots empty is coherent. -/
theorem cacheCoherentUpToUnresolved_of_empty (s : Vars)
    (h1 : s.clientsetPointer = none) (h2 : s.kruiseClientPointer = none) :
    cacheCoherentUpToUnresolved s := by
  simp [cacheCoherentUpToUnresolved, h1, h2]

/-- Resolving the context keeps the cache coherent up to clients built while unresolved. -/
theorem GetCurrentContext_coherent (o : Oracle) (s : Vars) (w : World)
    (h : cacheCoherentUpToUnresolved s) :
    cacheCoherentUpToUnresolved (GetCurrentContext o s w).2.1 := by
  by_cases hres : s.currentContext ≠ ""
  · rw [GetCurrentContext_resolved o s w hres]
    exact h
  · have hemp : s.currentContext = "" := by simpa using hres
    have hf := GetCurrentContext_frame o s w
    unfold cacheCoherentUpToUnresolved at h ⊢
    rw [hf.1, hf.2.1, hf.2.2.1]
    rw [hemp] at h
    constructor
    · intro c hc
      have := h.1 c hc
      exact ⟨this.1, Or.inr (by rcases this.2 with h1 | h1 <;> exact h1)⟩
    · intro c hc
      have := h.2 c hc
      exact ⟨this.1, Or.inr (by rcases this.2 with h1 | h1 <;> exact h1)⟩

theorem GetKubeClient_coherent (o : Oracle) (s : Vars) (w : World)
    (h : cacheCoherentUpToUnresolved s) :
    cacheCoherentUpToUnresolved (GetKubeClient o s w).2.1 := by
  have hinv := GetCurrentContext_coherent o s w h
  have hmemo := GetCurrentContext_memo o s w
  unfold GetKubeClient
  cases hslot : s.clientsetPointer with
  | some cs => exact h
  | none =>
    rcases hgc : GetCurrentContext o s w with ⟨r, s1, w1⟩
    rw [hgc] at hinv hmemo
    cases r with
    | error err => exact hinv
    | ok contextName =>
      have hm : s1.currentContext = contextName := hmemo contextName rfl
      simp only [loadClientConfig, NewForConfig]
      cases o.clientConfigErr with
      | some err => exact hinv
      | none =>
        cases o.newForConfigErr with
        | some err => exact hinv
        | none =>
          simp only [cacheCoherentUpToUnresolved] at hinv ⊢
          refine ⟨?_, hinv.2⟩
          intro c hc
          simp only [Option.mem_def, Option.some.injEq] at hc
          subst hc
          exact ⟨rfl, Or.inl hm.symm⟩

theorem getKruiseClient_coherent (o : Oracle) (s : Vars) (w : World)
    (h : cacheCoherentUpToUnresolved s) :
    cacheCoherentUpToUnresolved (getKruiseClient o s w).2.1 := by
  have hinv := GetCurrentContext_coherent o s w h
  have hmemo := GetCurrentContext_memo o s w
  unfold getKruiseClient
  rcases hgc : GetCurrentContext o s w with ⟨r, s1, w1⟩
  rw [hgc] at hinv hmemo
  cases r with
  | error err => exact hinv
  | ok contextName =>
    have hm : s1.currentContext = contextName := hmemo contextName rfl
    simp only
    cases hslot : s1.kruiseClientPointer with
    | some kc => exact hinv
    | none =>
      simp only [loadClientConfig, NewForConfig]
      cases o.clientConfigErr with
      | some err => exact hinv
      | none =>
        cases o.newForConfigErr with
        | some err => exact hinv
        | none =>
          simp only [cacheCoherentUpToUnresolved] at hinv ⊢
          refine ⟨hinv.1, ?_⟩
          intro c hc
          simp only [Option.mem_def, Option.some.injEq] at hc
          subst hc
          exact ⟨rfl, Or.inl hm.symm⟩

theorem GetRESTConfig_coherent (o : Oracle) (s : Vars) (w : World)
    (h : cacheCoherentUpToUnresolved s) :
    cacheCoherentUpToUnresolved (GetRESTConfig o s w).2.1 := by
  have hinv := GetCurrentContext_coherent o s w h
  unfold GetRESTConfig
  rcases hgc : GetCurrentContext o s w with ⟨r, s1, w1⟩
  rw [hgc] at hinv
  cases r with
  | error err => exact hinv
  | ok contextName =>
    simp only [loadClientConfig]
    cases o.clientConfigErr with
    | some err => exact hinv
    | none => exact hinv

theorem getCurrentContext_coherent (o : Oracle) (s : Vars) (w : World)
    (h : cacheCoherentUpToUnresolved s) :
    cacheCoherentUpToUnresolved (getCurrentContext o s w).2.1 := by
  have hinv := GetCurrentContext_coherent o s w h
  unfold getCurrentContext
  rcases hgc : GetCurrentContext o s w with ⟨r, s1, w1⟩
  rw [hgc] at hinv
  cases r with
  | error err => exact hinv
  | ok contextName => exact hinv

theorem listContextsInternal_coherent (o : Oracle) (s : Vars) (w : World)
    (h : cacheCoherentUpToUnresolved s) :
    cacheCoherentUpToUnresolved (listContextsInternal o s w).2.1 := by
  unfold listContextsInternal
  rcases hk : GetKubeConfig s w with ⟨rk, w1⟩
  cases rk with
  | error err => exact h
  | ok config =>
    simp only
    have hinv := GetCurrentContext_coherent o s w1 h
    rcases hgc : GetCurrentContext o s w1 with ⟨r, s2, w2⟩
    rw [hgc] at hinv
    cases r with
    | error err => exact hinv
    | ok currentCtx => exact hinv

theorem switchContextInternal_coherent (o : Oracle) (contextName : String) (s : Vars)
    (w : World) (h : cacheCoherentUpToUnresolved s) :
    cacheCoherentUpToUnresolved (switchContextInternal o contextName s w).2.1 := by
  unfold switchContextInternal
  rcases hk : GetKubeConfig s w with ⟨rk, w1⟩
  cases rk with
  | error err => exact h
  | ok config =>
    simp only
    split
    · exact h
    · have hinv := GetCurrentContext_coherent o s w1 h
      rcases hgc : GetCurrentContext o s w1 with ⟨r, s2, w2⟩
      rw [hgc] at hinv
      cases r with
      | error err => exact hinv
      | ok currentCtx =>
        simp only
        split
        · exact hinv
        · simp only [ModifyConfig]
          cases o.modifyConfigErr with
          | some err => exact hinv
          | none => exact cacheCoherentUpToUnresolved_of_empty _ rfl rfl

theorem setKubeconfigPathInternal_coherent (o : Oracle) (kubeconfigPath : String) (s : Vars)
    (w : World) (h : cacheCoherentUpToUnresolved s) :
    cacheCoherentUpToUnresolved (setKubeconfigPathInternal o kubeconfigPath s w).2.1 := by
  unfold setKubeconfigPathInternal
  rcases hv : ValidateAndFixKubeconfig kubeconfigPath w with ⟨rv, w1⟩
  cases rv with
  | error err => exact h
  | ok u =>
    simp only
    have hinv := GetCurrentContext_coherent o
      (ClearClientCache (ResetCurrentContext (SetCustomKubeconfigPath kubeconfigPath s))) w1
      (cacheCoherentUpToUnresolved_of_empty _ rfl rfl)
    rcases hgc : GetCurrentContext o
      (ClearClientCache (ResetCurrentContext (SetCustomKubeconfigPath kubeconfigPath s))) w1
      with ⟨r, s2, w2⟩
    rw [hgc] at hinv
    cases r with
    | error err => exact hinv
    | ok ctx =>
      simp only
      rcases hk : GetKubeConfig s2 w2 with ⟨rk, w3⟩
      cases rk with
      | error err => exact hinv
      | ok configAfterSet =>
        simp only
        split
        · split
          · split
            · simp only [ModifyConfig]
              cases o.modifyConfigErr with
              | some err => exact hinv
              | none => exact cacheCoherentUpToUnresolved_of_empty _ rfl rfl
            · exact hinv
          · exact hinv
        · exact hinv

/-- One operation keeps the cache coherent up to clients built while unresolved. -/
theorem applyOp_coherent (op : Op) (sw : Vars × World)
    (h : cacheCoherentUpToUnresolved sw.1) :
    cacheCoherentUpToUnresolved (applyOp op sw).1 := by
  cases op with
  | setKubeconfigPath o p => exact setKubeconfigPathInternal_coherent o p sw.1 sw.2 h
  | getCurrentContext o => exact getCurrentContext_coherent o sw.1 sw.2 h
  | listContexts o => exact listContextsInternal_coherent o sw.1 sw.2 h
  | switchContext o n => exact switchContextInternal_coherent o n sw.1 sw.2 h
  | getKubeClient o => exact GetKubeClient_coherent o sw.1 sw.2 h
  | getKruiseClient o => exact getKruiseClient_coherent o sw.1 sw.2 h
  | getRESTConfig o => exact GetRESTConfig_coherent o sw.1 sw.2 h

theorem runOps_coherent (ops : List Op) (sw : Vars × World)
    (h : cacheCoherentUpToUnresolved sw.1) :
    cacheCoherentUpToUnresolved (runOps ops sw).1 := by
  induction ops generalizing sw with
  | nil => exact h
  | cons op rest ih => exact ih (applyOp op sw) (applyOp_coherent op sw h)

/-- Claim C3, amended. From the initial state and in any environment, after any finite
sequence of operations (each with any outcome of its library calls), every cached client
was built from the current configuration location, and from the current `currentContext`
or from the empty context name. -/
theorem cacheCoherentUpToUnresolved_reachable (ops : List Op) (w : World) :
    cacheCoherentUpToUnresolved (runOps ops (Vars.init, w)).1 :=
  runOps_coherent ops (Vars.init, w) (cacheCoherentUpToUnresolved_of_empty _ rfl rfl)

/-! ## The client cache: claims C4 to C7 -/

theorem GetKubeConfig_constructionCalls (s : Vars) (w : World) :
    constructionCalls (GetKubeConfig s w).2 = constructionCalls w := by
  unfold GetKubeConfig constructionCalls
  split
  · split
    · simp [World.log, isConstruction]
    · split <;> simp [World.log, isConstruction]
  · split <;> simp [World.log, isConstruction]

theorem GetCurrentContext_constructionCalls (o : Oracle) (s : Vars) (w : World) :
    constructionCalls (GetCurrentContext o s w).2.2 = constructionCalls w := by
  have hk := GetKubeConfig_constructionCalls s w
  unfold GetCurrentContext
  split
  · rfl
  · split
    · rename_i heq
      rw [heq] at hk
      exact hk
    · rename_i heq
      rw [heq] at hk
      exact hk

/-- With `currentContext` unresolved, `GetCurrentContext` succeeds exactly when the
document loads. -/
theorem GetCurrentContext_ok_load (o : Oracle) (s : Vars) (w : World) (c : String)
    (hun : s.currentContext = "") (h : (GetCurrentContext o s w).1 = Except.ok c) :
    ∃ D, (GetKubeConfig s w).1 = Except.ok D := by
  unfold GetCurrentContext at h
  simp only [hun, ne_eq, not_true_eq_false, if_false] at h
  rcases hk : GetKubeConfig s w with ⟨rk, w1⟩
  rw [hk] at h
  cases rk with
  | error err => simp at h
  | ok D => exact ⟨D, rfl⟩

/-- If `GetCurrentContext` succeeds, it succeeds again on any variables that agree with
the ones it leaves on `currentContext` and on the path, in any environment with the same
files and whatever the oracle. -/
theorem GetCurrentContext_ok_again (o o2 : Oracle) (s : Vars) (w : World) (c : String)
    (h : (GetCurrentContext o s w).1 = Except.ok c) (s2 : Vars) (w2 : World)
    (hc2 : s2.currentContext = (GetCurrentContext o s w).2.1.currentContext)
    (hp2 : s2.customKubeconfigPath = s.customKubeconfigPath)
    (hd : w2.defaultFile = w.defaultFile) (hf : w2.files = w.files) :
    ∃ c2, (GetCurrentContext o2 s2 w2).1 = Except.ok c2 := by
  by_cases hres2 : s2.currentContext ≠ ""
  · rw [GetCurrentContext_resolved o2 s2 w2 hres2]
    exact ⟨_, rfl⟩
  · have hun2 : s2.currentContext = "" := by simpa using hres2
    have hun : s.currentContext = "" := by
      by_contra hne
      rw [GetCurrentContext_resolved o s w hne] at hc2
      exact hne (by rw [← hc2, hun2])
    obtain ⟨D, hD⟩ := GetCurrentContext_ok_load o s w c hun h
    have hD2 : (GetKubeConfig s2 w2).1 = Except.ok D := by
      rw [GetKubeConfig_congr s s2 w w2 hp2 hd hf, hD]
    exact GetCurrentContext_ok_of_load o2 s2 w2 D hD2

/-- Cache hit of `GetKubeClient`: the cached client is returned and nothing else happens. -/
theorem GetKubeClient_hit (o : Oracle) (s : Vars) (w : World) (h : Client)
    (hslot : s.clientsetPointer = some h) :
    GetKubeClient o s w = (Except.ok h, s, w) := by
  simp [GetKubeClient, hslot]

/-- Cache hit of `getKruiseClient` when the context resolution that precedes the cache
lookup succeeds: the cached client is returned and no construction call is made. -/
theorem getKruiseClient_hit (o : Oracle) (s : Vars) (w : World) (h : Client) (c : String)
    (hslot : s.kruiseClientPointer = some h)
    (hres : (GetCurrentContext o s w).1 = Except.ok c) :
    getKruiseClient o s w = (Except.ok h, (GetCurrentContext o s w).2.1,
      (GetCurrentContext o s w).2.2) := by
  have hf := (GetCurrentContext_frame o s w).2.2.1
  unfold getKruiseClient
  rcases hgc : GetCurrentContext o s w with ⟨r, s1, w1⟩
  rw [hgc] at hres hf
  simp only at hres hf
  subst hres
  simp only [hf, hslot]

/-- Claim C4 at its failing input. The state `bothCached` is reached from the initial
state by `GetKubeClient` and `GetKruiseClient` when no kubeconfig exists. In it, with a
default kubeconfig that no longer parses, `GetKubeClient` returns the cached core client
and leaves state and environment alone, while `GetKruiseClient`, whose slot holds
`cachedWorkload`, returns the load error instead of the cached client. -/
theorem getKruiseClient_hit_failing_input :
    (runOps [Op.getKubeClient (okOracle 0), Op.getKruiseClient (okOracle 0)]
      (Vars.init, worldOf FileState.absent)).1 = bothCached ∧
    slotOf Kind.workload bothCached = some cachedWorkload ∧
    (getClient Kind.core (okOracle 0) bothCached brokenWorld).1 = Except.ok cachedCore ∧
    (getClient Kind.core (okOracle 0) bothCached brokenWorld).2.1 = bothCached ∧
    (getClient Kind.core (okOracle 0) bothCached brokenWorld).2.2.trace = [] ∧
    (getClient Kind.workload (okOracle 0) bothCached brokenWorld).1
      = Except.error "error loading kubeconfig: yaml: line 1: did not find expected key" ∧
    (getClient Kind.workload (okOracle 0) bothCached brokenWorld).2.2.trace
      = [Event.getStartingConfig ""] := by
  decide

/-- Cache miss of `GetKubeClient` with every step succeeding. -/
theorem GetKubeClient_miss (o : Oracle) (s s1 : Vars) (w w1 : World) (c : String)
    (hslot : s.clientsetPointer = none)
    (hres : GetCurrentContext o s w = (Except.ok c, s1, w1))
    (hcc : o.clientConfigErr = none) (hnew : o.newForConfigErr = none) :
    GetKubeClient o s w =
      (Except.ok { kind := Kind.core, path := s1.customKubeconfigPath, context := c,
                   id := w1.nextId },
        { s1 with
          clientsetPointer :=
            some { kind := Kind.core, path := s1.customKubeconfigPath, context := c,
                   id := w1.nextId } },
        afterConstruction Kind.core s1.customKubeconfigPath c w1) := by
  simp [GetKubeClient, hslot, hres, loadClientConfig, NewForConfig, hcc, hnew,
    afterConstruction, World.log]

/-- Cache miss of `getKruiseClient` with every step succeeding. -/
theorem getKruiseClient_miss (o : Oracle) (s s1 : Vars) (w w1 : World) (c : String)
    (hslot : s.kruiseClientPointer = none)
    (hres : GetCurrentContext o s w = (Except.ok c, s1, w1))
    (hcc : o.clientConfigErr = none) (hnew : o.newForConfigErr = none) :
    getKruiseClient o s w =
      (Except.ok { kind := Kind.workload, path := s1.customKubeconfigPath, context := c,
                   id := w1.nextId },
        { s1 with
          kruiseClientPointer :=
            some { kind := Kind.workload, path := s1.customKubeconfigPath, context := c,
                   id := w1.nextId } },
        afterConstruction Kind.workload s1.customKubeconfigPath c w1) := by
  have hf := (GetCurrentContext_frame o s w).2.2.1
  rw [hres] at hf
  simp only at hf
  simp [getKruiseClient, hf, hslot, hres, loadClientConfig, NewForConfig, hcc, hnew,
    afterConstruction, World.log]

theorem constructionCalls_afterConstruction (k : Kind) (path c : String) (w1 : World) :
    constructionCalls (afterConstruction k path c w1)
      = constructionCalls w1 ++ [Event.clientConfig path c, Event.newForConfig k path c] := by
  simp [constructionCalls, afterConstruction, World.log, isConstruction]

/-- Claim C5. For each client kind: when its slot is empty, context resolution yields `c`
and construction succeeds, the getter returns a new client built from the current
configuration location and `c`, with exactly one construction; the client is stored in
the slot of its kind; the slot of the other kind is unchanged; and the next call for the
same kind, whatever its oracle, returns the same client without constructing again. -/
theorem getClient_miss_builds_and_installs (k : Kind) (o o2 : Oracle) (s : Vars) (w : World)
    (c : String)
    (hslot : slotOf k s = none)
    (hres : (GetCurrentContext o s w).1 = Except.ok c)
    (hcc : o.clientConfigErr = none) (hnew : o.newForConfigErr = none) :
    (getClient k o s w).1
      = Except.ok { kind := k, path := s.customKubeconfigPath, context := c,
                    id := w.nextId } ∧
    constructionCalls (getClient k o s w).2.2
      = constructionCalls w ++ [Event.clientConfig s.customKubeconfigPath c,
          Event.newForConfig k s.customKubeconfigPath c] ∧
    (getClient k o s w).2.1.customKubeconfigPath = s.customKubeconfigPath ∧
    slotOf k (getClient k o s w).2.1
      = some { kind := k, path := s.customKubeconfigPath, context := c, id := w.nextId } ∧
    slotOf (otherKind k) (getClient k o s w).2.1 = slotOf (otherKind k) s ∧
    (getClient k o2 (getClient k o s w).2.1 (getClient k o s w).2.2).1
      = Except.ok { kind := k, path := s.customKubeconfigPath, context := c,
                    id := w.nextId } ∧
    constructionCalls (getClient k o2 (getClient k o s w).2.1 (getClient k o s w).2.2).2.2
      = constructionCalls (getClient k o s w).2.2 := by
  have hfr := GetCurrentContext_frame o s w
  have hcalls := GetCurrentContext_constructionCalls o s w
  have hagain := fun s2 w2 hc2 hp2 hd hf =>
    GetCurrentContext_ok_again o o2 s w c hres s2 w2 hc2 hp2 hd hf
  rcases hgc : GetCurrentContext o s w with ⟨r, s1, w1⟩
  rw [hgc] at hres hfr hcalls hagain
  simp only at hres hfr hcalls hagain
  subst hres
  obtain ⟨hp, hcore, hkr, hd, hf, hid⟩ := hfr
  cases k with
  | core =>
    simp only [slotOf] at hslot
    simp only [getClient, slotOf, otherKind]
    rw [GetKubeClient_miss o s s1 w w1 _ hslot hgc hcc hnew]
    simp only [constructionCalls_afterConstruction, hp, hid, hcalls, hkr]
    rw [GetKubeClient_hit o2 _ _ _ rfl]
    simp [constructionCalls_afterConstruction, hcalls]
  | workload =>
    simp only [slotOf] at hslot
    simp only [getClient, slotOf, otherKind, GetKruiseClient]
    rw [getKruiseClient_miss o s s1 w w1 _ hslot hgc hcc hnew]
    simp only [constructionCalls_afterConstruction, hp, hid, hcalls, hcore]
    obtain ⟨c2, hc2⟩ := hagain
      { currentContext := s1.currentContext, customKubeconfigPath := s.customKubeconfigPath,
        clientsetPointer := s.clientsetPointer,
        kruiseClientPointer :=
          some { kind := Kind.workload, path := s.customKubeconfigPath, context := c,
                 id := w.nextId } }
      (afterConstruction Kind.workload s.customKubeconfigPath c w1) rfl rfl hd hf
    rw [getKruiseClient_hit o2 _ _ _ c2 rfl hc2]
    simp [constructionCalls_afterConstruction, hcalls, GetCurrentContext_constructionCalls]

/-- Witness for C5: from the initial state with `docAB` as default kubeconfig, the first
`GetKruiseClient` builds a client for (`""`, `a`) and the second call returns it. -/
theorem getClient_miss_builds_and_installs_witness :
    (getClient Kind.workload (okOracle 0) Vars.init (worldOf (FileState.doc docAB))).1
      = Except.ok { kind := Kind.workload, path := "", context := "a", id := 0 } ∧
    (getClient Kind.workload persistFailOracle
      (getClient Kind.workload (okOracle 0) Vars.init (worldOf (FileState.doc docAB))).2.1
      (getClient Kind.workload (okOracle 0) Vars.init (worldOf (FileState.doc docAB))).2.2).1
      = Except.ok { kind := Kind.workload, path := "", context := "a", id := 0 } :=
  have h := getClient_miss_builds_and_installs Kind.workload (okOracle 0) persistFailOracle
    Vars.init (worldOf (FileState.doc docAB)) "a" rfl (by decide) rfl rfl
  ⟨h.1, h.2.2.2.2.2.1⟩

/-- Cache miss with every step succeeding, for either kind: the result and the
construction calls. -/
theorem getClient_miss_result (k : Kind) (o : Oracle) (s : Vars) (w : World) (c : String)
    (hslot : slotOf k s = none)
    (hres : (GetCurrentContext o s w).1 = Except.ok c)
    (hcc : o.clientConfigErr = none) (hnew : o.newForConfigErr = none) :
    (getClient k o s w).1
      = Except.ok { kind := k, path := s.customKubeconfigPath, context := c,
                    id := w.nextId } ∧
    constructionCalls (getClient k o s w).2.2
      = constructionCalls w ++ [Event.clientConfig s.customKubeconfigPath c,
          Event.newForConfig k s.customKubeconfigPath c] := by
  have hfr := GetCurrentContext_frame o s w
  have hcalls := GetCurrentContext_constructionCalls o s w
  rcases hgc : GetCurrentContext o s w with ⟨r, s1, w1⟩
  rw [hgc] at hres hfr hcalls
  simp only at hres hfr hcalls
  subst hres
  obtain ⟨hp, -, -, -, -, hid⟩ := hfr
  cases k with
  | core =>
    simp only [slotOf] at hslot
    simp only [getClient]
    rw [GetKubeClient_miss o s s1 w w1 _ hslot hgc hcc hnew]
    simp [constructionCalls_afterConstruction, hp, hid, hcalls]
  | workload =>
    simp only [slotOf] at hslot
    simp only [getClient, GetKruiseClient]
    rw [getKruiseClient_miss o s s1 w w1 _ hslot hgc hcc hnew]
    simp [constructionCalls_afterConstruction, hp, hid, hcalls]

/-- Cache miss, for either kind: once the context is resolved, the config loader is
called for the current location and that context, whatever happens afterwards. -/
theorem getClient_miss_attempts (k : Kind) (o : Oracle) (s : Vars) (w : World) (c : String)
    (hslot : slotOf k s = none)
    (hres : (GetCurrentContext o s w).1 = Except.ok c) :
    ∃ rest, constructionCalls (getClient k o s w).2.2
      = constructionCalls w ++ Event.clientConfig s.customKubeconfigPath c :: rest := by
  have hfr := GetCurrentContext_frame o s w
  have hcalls := GetCurrentContext_constructionCalls o s w
  rcases hgc : GetCurrentContext o s w with ⟨r, s1, w1⟩
  rw [hgc] at hres hfr hcalls
  simp only at hres hfr hcalls
  subst hres
  obtain ⟨hp, hcore, hkr, -, -, hid⟩ := hfr
  unfold constructionCalls at hcalls
  cases k with
  | core =>
    simp only [slotOf] at hslot
    simp only [getClient, GetKubeClient, hslot, hgc, loadClientConfig, NewForConfig]
    cases o.clientConfigErr with
    | some err => exact ⟨[], by simp [constructionCalls, World.log, isConstruction, hp, hcalls]⟩
    | none =>
      cases o.newForConfigErr with
      | some err =>
        exact ⟨[Event.newForConfig Kind.core s.customKubeconfigPath c],
          by simp [constructionCalls, World.log, isConstruction, hp, hcalls]⟩
      | none =>
        exact ⟨[Event.newForConfig Kind.core s.customKubeconfigPath c],
          by simp [constructionCalls, World.log, isConstruction, hp, hcalls]⟩
  | workload =>
    simp only [slotOf] at hslot
    rw [← hkr] at hslot
    simp only [getClient, GetKruiseClient, getKruiseClient, hslot, hgc, loadClientConfig,
      NewForConfig]
    cases o.clientConfigErr with
    | some err => exact ⟨[], by simp [constructionCalls, World.log, isConstruction, hp, hcalls]⟩
    | none =>
      cases o.newForConfigErr with
      | some err =>
        exact ⟨[Event.newForConfig Kind.workload s.customKubeconfigPath c],
          by simp [constructionCalls, World.log, isConstruction, hp, hcalls]⟩
      | none =>
        exact ⟨[Event.newForConfig Kind.workload s.customKubeconfigPath c],
          by simp [constructionCalls, World.log, isConstruction, hp, hcalls]⟩

/-- Cache miss in which resolution, config loading or construction fails, for either
kind: an error is returned and both slots are as before. -/
theorem getClient_miss_failure (k : Kind) (o : Oracle) (s : Vars) (w : World)
    (hslot : slotOf k s = none)
    (hfail : (∃ e, (GetCurrentContext o s w).1 = Except.error e) ∨
      o.clientConfigErr ≠ none ∨ o.newForConfigErr ≠ none) :
    (∃ e, (getClient k o s w).1 = Except.error e) ∧
    (getClient k o s w).2.1.clientsetPointer = s.clientsetPointer ∧
    (getClient k o s w).2.1.kruiseClientPointer = s.kruiseClientPointer ∧
    (getClient k o s w).2.1.customKubeconfigPath = s.customKubeconfigPath := by
  have hfr := GetCurrentContext_frame o s w
  rcases hgc : GetCurrentContext o s w with ⟨r, s1, w1⟩
  rw [hgc] at hfail hfr
  simp only at hfail hfr
  obtain ⟨hp, hcore, hkr, -, -, -⟩ := hfr
  cases k with
  | core =>
    simp only [slotOf] at hslot
    simp only [getClient, GetKubeClient, hslot, hgc, loadClientConfig, NewForConfig]
    cases r with
    | error err => exact ⟨⟨_, rfl⟩, hcore.trans hslot, hkr, hp⟩
    | ok c =>
      cases hcc : o.clientConfigErr with
      | some err => exact ⟨⟨_, rfl⟩, hcore.trans hslot, hkr, hp⟩
      | none =>
        cases hnew : o.newForConfigErr with
        | some err => exact ⟨⟨_, rfl⟩, hcore.trans hslot, hkr, hp⟩
        | none => simp [hcc, hnew] at hfail
  | workload =>
    simp only [slotOf] at hslot
    rw [← hkr] at hslot
    simp only [getClient, GetKruiseClient, getKruiseClient, hgc, loadClientConfig,
      NewForConfig]
    cases r with
    | error err => exact ⟨⟨_, rfl⟩, hcore, hkr, hp⟩
    | ok c =>
      simp only [hslot]
      cases hcc : o.clientConfigErr with
      | some err => exact ⟨⟨_, rfl⟩, hcore, hkr, hp⟩
      | none =>
        cases hnew : o.newForConfigErr with
        | some err => exact ⟨⟨_, rfl⟩, hcore, hkr, hp⟩
        | none => simp [hcc, hnew] at hfail

theorem slotOf_eq_of_pointers (k : Kind) (s s1 : Vars)
    (hcore : s1.clientsetPointer = s.clientsetPointer)
    (hkr : s1.kruiseClientPointer = s.kruiseClientPointer) :
    slotOf k s1 = slotOf k s := by
  cases k <;> simp [slotOf, hcore, hkr]

/-- Claim C6. For each client kind with an empty slot: when context resolution, config
loading or client construction fails, the getter returns an error and both slots are as
before, the slot of the kind still empty; and a subsequent call for that kind whose
context resolution yields `c2` calls the config loader again for the current location
and `c2`, and returns a newly constructed client when its own library calls succeed. -/
theorem getClient_failure_does_not_poison (k : Kind) (o o2 : Oracle) (s : Vars) (w : World)
    (hslot : slotOf k s = none)
    (hfail : (∃ e, (GetCurrentContext o s w).1 = Except.error e) ∨
      o.clientConfigErr ≠ none ∨ o.newForConfigErr ≠ none) :
    (∃ e, (getClient k o s w).1 = Except.error e) ∧
    (getClient k o s w).2.1.clientsetPointer = s.clientsetPointer ∧
    (getClient k o s w).2.1.kruiseClientPointer = s.kruiseClientPointer ∧
    slotOf k (getClient k o s w).2.1 = none ∧
    (∀ c2, (GetCurrentContext o2 (getClient k o s w).2.1 (getClient k o s w).2.2).1
        = Except.ok c2 →
      (∃ rest,
        constructionCalls (getClient k o2 (getClient k o s w).2.1 (getClient k o s w).2.2).2.2
          = constructionCalls (getClient k o s w).2.2
            ++ Event.clientConfig s.customKubeconfigPath c2 :: rest) ∧
      (o2.clientConfigErr = none → o2.newForConfigErr = none →
        (getClient k o2 (getClient k o s w).2.1 (getClient k o s w).2.2).1
          = Except.ok { kind := k, path := s.customKubeconfigPath, context := c2,
                        id := (getClient k o s w).2.2.nextId })) := by
  obtain ⟨herr, hcore, hkr, hp⟩ := getClient_miss_failure k o s w hslot hfail
  have hslot1 : slotOf k (getClient k o s w).2.1 = none := by
    rw [slotOf_eq_of_pointers k s _ hcore hkr, hslot]
  refine ⟨herr, hcore, hkr, hslot1, ?_⟩
  intro c2 hres2
  constructor
  · have h := getClient_miss_attempts k o2 _ _ c2 hslot1 hres2
    rw [hp] at h
    exact h
  · intro hcc hnew
    have h := (getClient_miss_result k o2 _ _ c2 hslot1 hres2 hcc hnew).1
    rw [hp] at h
    exact h

/-- Witness for C6: from the initial state with `docAB` as default kubeconfig, a failing
constructor gives an error, and the next `GetKubeClient` builds a client for context `a`. -/
theorem getClient_failure_does_not_poison_witness :
    (∃ e, (getClient Kind.core constructorFailOracle Vars.init
      (worldOf (FileState.doc docAB))).1 = Except.error e) ∧
    (getClient Kind.core (okOracle 0)
      (getClient Kind.core constructorFailOracle Vars.init
        (worldOf (FileState.doc docAB))).2.1
      (getClient Kind.core constructorFailOracle Vars.init
        (worldOf (FileState.doc docAB))).2.2).1
      = Except.ok { kind := Kind.core, path := "", context := "a", id := 0 } :=
  have h := getClient_failure_does_not_poison Kind.core constructorFailOracle (okOracle 0)
    Vars.init (worldOf (FileState.doc docAB)) rfl (Or.inr (Or.inr (by decide)))
  ⟨h.1, (h.2.2.2.2 "a" (by decide)).2 rfl rfl⟩

/-- Claim C7. `ClearClientCache` empties both slots whatever they held and leaves
`currentContext` and the configuration location alone. The next call of either getter
never returns a client allocated before; when it returns a client, that client was
constructed in this call from the current location; and when its context resolution
yields `c`, the config loader is called for the current location and `c`. -/
theorem ClearClientCache_forces_reconstruction (k : Kind) (o : Oracle) (s : Vars)
    (w : World) :
    (ClearClientCache s).clientsetPointer = none ∧
    (ClearClientCache s).kruiseClientPointer = none ∧
    (ClearClientCache s).currentContext = s.currentContext ∧
    (ClearClientCache s).customKubeconfigPath = s.customKubeconfigPath ∧
    (∀ h, (getClient k o (ClearClientCache s) w).1 = Except.ok h →
      (∃ c, (GetCurrentContext o (ClearClientCache s) w).1 = Except.ok c ∧
        h = { kind := k, path := s.customKubeconfigPath, context := c, id := w.nextId } ∧
        constructionCalls (getClient k o (ClearClientCache s) w).2.2
          = constructionCalls w ++ [Event.clientConfig s.customKubeconfigPath c,
              Event.newForConfig k s.customKubeconfigPath c]) ∧
      (∀ old, (old ∈ s.clientsetPointer ∨ old ∈ s.kruiseClientPointer) →
        old.id < w.nextId → h ≠ old)) ∧
    (∀ c, (GetCurrentContext o (ClearClientCache s) w).1 = Except.ok c →
      ∃ rest, constructionCalls (getClient k o (ClearClientCache s) w).2.2
        = constructionCalls w ++ Event.clientConfig s.customKubeconfigPath c :: rest) := by
  have hslot : slotOf k (ClearClientCache s) = none := by
    cases k <;> rfl
  refine ⟨rfl, rfl, rfl, rfl, ?_, ?_⟩
  · intro h hok
    have hbuilt : ∃ c, (GetCurrentContext o (ClearClientCache s) w).1 = Except.ok c ∧
        h = { kind := k, path := s.customKubeconfigPath, context := c, id := w.nextId } ∧
        constructionCalls (getClient k o (ClearClientCache s) w).2.2
          = constructionCalls w ++ [Event.clientConfig s.customKubeconfigPath c,
              Event.newForConfig k s.customKubeconfigPath c] := by
      by_cases hfail : (∃ e, (GetCurrentContext o (ClearClientCache s) w).1 = Except.error e) ∨
          o.clientConfigErr ≠ none ∨ o.newForConfigErr ≠ none
      · obtain ⟨⟨e, he⟩, -⟩ := getClient_miss_failure k o _ w hslot hfail
        rw [he] at hok
        simp at hok
      · simp only [not_or, not_exists, ne_eq, not_not] at hfail
        obtain ⟨hnoerr, hcc, hnew⟩ := hfail
        cases hr : (GetCurrentContext o (ClearClientCache s) w).1 with
        | error e => exact absurd hr (hnoerr e)
        | ok c =>
          have hres := getClient_miss_result k o (ClearClientCache s) w c hslot hr hcc hnew
          refine ⟨c, rfl, ?_, hres.2⟩
          rw [hres.1] at hok
          exact (Except.ok.inj hok).symm
    refine ⟨hbuilt, ?_⟩
    intro old _ hlt heq
    obtain ⟨c, -, hh, -⟩ := hbuilt
    rw [← heq, hh] at hlt
    exact Nat.lt_irrefl _ hlt
  · intro c hres
    exact getClient_miss_attempts k o (ClearClientCache s) w c hslot hres

/-- Witness for C7: after `ClearClientCache` on `resolvedCached`, `GetKubeClient` returns
the newly allocated client 2, which is not the client 0 cached before. -/
theorem ClearClientCache_forces_reconstruction_witness :
    (getClient Kind.core (okOracle 0) (ClearClientCache resolvedCached) worldAfterTwo).1
      = Except.ok { kind := Kind.core, path := "", context := "a", id := 2 } ∧
    ({ kind := Kind.core, path := "", context := "a", id := 2 } : Client)
      ≠ { kind := Kind.core, path := "", context := "a", id := 0 } :=
  have h := ClearClientCache_forces_reconstruction Kind.core (okOracle 0) resolvedCached
    worldAfterTwo
  ⟨by decide, (h.2.2.2.2.1 _ (by decide)).2 _ (Or.inl rfl) (by decide)⟩

/-! ## Context resolution: claims C8 to C10 -/

/-- The first iteration over a non-empty map yields one of its keys. -/
theorem rangeFirst_some {α : Type} (seed : Nat) (m : List (String × α))
    (h : m.length > 0) :
    ∃ name, rangeFirst seed m = some name ∧ hasKey m name = true := by
  have hlt : seed % m.length < (m.map Prod.fst).length := by
    rw [List.length_map]
    exact Nat.mod_lt _ h
  refine ⟨(m.map Prod.fst)[seed % m.length], ?_, ?_⟩
  · unfold rangeFirst
    exact List.getElem?_eq_getElem hlt
  · have hmem : (m.map Prod.fst)[seed % m.length] ∈ m.map Prod.fst := List.getElem_mem hlt
    rw [List.mem_map] at hmem
    obtain ⟨kv, hkv, hfst⟩ := hmem
    unfold hasKey
    rw [List.any_eq_true]
    exact ⟨kv, hkv, by simp [hfst]⟩

/-- Claim C8. With `currentContext` unresolved and a document `D` that loads and declares
at least one context, `GetCurrentContext` returns without error a name `c` that is
`D.CurrentContext` when that field is non-empty and otherwise a key of `D.Contexts`;
afterwards `currentContext` is `c`. -/
theorem GetCurrentContext_resolve_postcondition (o : Oracle) (s : Vars) (w w1 : World)
    (D : Config)
    (hun : s.currentContext = "")
    (hload : GetKubeConfig s w = (Except.ok D, w1))
    (hctx : D.Contexts.length > 0) :
    ∃ c, (GetCurrentContext o s w).1 = Except.ok c ∧
      (D.CurrentContext ≠ "" → c = D.CurrentContext) ∧
      (D.CurrentContext = "" → hasKey D.Contexts c = true) ∧
      (GetCurrentContext o s w).2.1.currentContext = c := by
  obtain ⟨name, hname, hkey⟩ := rangeFirst_some o.rangeSeed D.Contexts hctx
  by_cases hcur : D.CurrentContext = ""
  · refine ⟨name, ?_, fun h => absurd hcur h, fun _ => hkey, ?_⟩ <;>
      simp [GetCurrentContext, hun, hload, adoptFirstContext, hcur, hctx, hname]
  · refine ⟨D.CurrentContext, ?_, fun _ => rfl, fun h => absurd h hcur, ?_⟩ <;>
      simp [GetCurrentContext, hun, hload, adoptFirstContext, hcur]

/-- Witness for C8: the initial state with `docEmptyName` as default kubeconfig; with the
map iteration starting at the second entry, the resolved context is `a`. -/
theorem GetCurrentContext_resolve_postcondition_witness :
    ∃ c, (GetCurrentContext (okOracle 1) Vars.init
        (worldOf (FileState.doc docEmptyName))).1 = Except.ok c ∧
      (docEmptyName.CurrentContext ≠ "" → c = docEmptyName.CurrentContext) ∧
      (docEmptyName.CurrentContext = "" → hasKey docEmptyName.Contexts c = true) ∧
      (GetCurrentContext (okOracle 1) Vars.init
        (worldOf (FileState.doc docEmptyName))).2.1.currentContext = c :=
  GetCurrentContext_resolve_postcondition (okOracle 1) Vars.init
    (worldOf (FileState.doc docEmptyName))
    ((worldOf (FileState.doc docEmptyName)).log (Event.getStartingConfig "")) docEmptyName
    rfl rfl (by decide)

/-- Claim C9 as stated fails. From the initial state with no kubeconfig at the default
location, two consecutive calls of `GetCurrentContext` both succeed with the empty name,
and the second call reads the document again. With `docEmptyName` as default kubeconfig
two consecutive successful calls even return different names, `""` and then `a`. -/
theorem GetCurrentContext_idempotent_counterexample :
    (GetCurrentContext (okOracle 0) Vars.init (worldOf FileState.absent)).1 = Except.ok "" ∧
    (GetCurrentContext (okOracle 0)
      (GetCurrentContext (okOracle 0) Vars.init (worldOf FileState.absent)).2.1
      (GetCurrentContext (okOracle 0) Vars.init (worldOf FileState.absent)).2.2).1
      = Except.ok "" ∧
    documentLoads (GetCurrentContext (okOracle 0) Vars.init (worldOf FileState.absent)).2.2
      = [Event.getStartingConfig ""] ∧
    documentLoads (GetCurrentContext (okOracle 0)
      (GetCurrentContext (okOracle 0) Vars.init (worldOf FileState.absent)).2.1
      (GetCurrentContext (okOracle 0) Vars.init (worldOf FileState.absent)).2.2).2.2
      = [Event.getStartingConfig "", Event.getStartingConfig ""] ∧
    (GetCurrentContext (okOracle 0) Vars.init
      (worldOf (FileState.doc docEmptyName))).1 = Except.ok "" ∧
    (GetCurrentContext (okOracle 1)
      (GetCurrentContext (okOracle 0) Vars.init (worldOf (FileState.doc docEmptyName))).2.1
      (GetCurrentContext (okOracle 0) Vars.init (worldOf (FileState.doc docEmptyName))).2.2).1
      = Except.ok "a" := by
  decide

/-- Claim C9, amended. When `GetCurrentContext` returns a non-empty name `c`, the next
call, whatever its oracle, returns `c` again and changes neither the package variables
nor the environment: it makes no library call, so no document read. -/
theorem GetCurrentContext_idempotent (o o2 : Oracle) (s : Vars) (w : World) (c : String)
    (hres : (GetCurrentContext o s w).1 = Except.ok c)
    (hne : c ≠ "") :
    GetCurrentContext o2 (GetCurrentContext o s w).2.1 (GetCurrentContext o s w).2.2
      = (Except.ok c, (GetCurrentContext o s w).2.1, (GetCurrentContext o s w).2.2) := by
  have hmemo := GetCurrentContext_memo o s w c hres
  have hres1 : (GetCurrentContext o s w).2.1.currentContext ≠ "" := by
    rw [hmemo]
    exact hne
  rw [GetCurrentContext_resolved o2 _ _ hres1, hmemo]

/-- Witness for the amended C9: the initial state with `docAB` as default kubeconfig. -/
theorem GetCurrentContext_idempotent_witness :
    GetCurrentContext persistFailOracle
        (GetCurrentContext (okOracle 0) Vars.init (worldOf (FileState.doc docAB))).2.1
        (GetCurrentContext (okOracle 0) Vars.init (worldOf (FileState.doc docAB))).2.2
      = (Except.ok "a",
        (GetCurrentContext (okOracle 0) Vars.init (worldOf (FileState.doc docAB))).2.1,
        (GetCurrentContext (okOracle 0) Vars.init (worldOf (FileState.doc docAB))).2.2) :=
  GetCurrentContext_idempotent (okOracle 0) persistFailOracle Vars.init
    (worldOf (FileState.doc docAB)) "a" (by decide) (by decide)

/-- Claim C10 as stated fails: with `docNoContext` as default kubeconfig (it loads, its
current context is empty and it declares no context), `GetCurrentContext` from the
initial state returns the empty name and no error. -/
theorem GetCurrentContext_no_context_counterexample :
    (GetKubeConfig Vars.init (worldOf (FileState.doc docNoContext))).1
      = Except.ok docNoContext ∧
    docNoContext.CurrentContext = "" ∧
    docNoContext.Contexts.length = 0 ∧
    (GetCurrentContext (okOracle 0) Vars.init (worldOf (FileState.doc docNoContext))).1
      = Except.ok "" := by
  decide

/-- Claim C10, amended. When the document loads with an empty current context and no
declared context, `GetCurrentContext` called with `currentContext` unresolved returns the
empty name with no error, and the package variables are unchanged, so `currentContext`
stays unresolved. -/
theorem GetCurrentContext_no_context (o : Oracle) (s : Vars) (w w1 : World) (D : Config)
    (hun : s.currentContext = "")
    (hload : GetKubeConfig s w = (Except.ok D, w1))
    (hcur : D.CurrentContext = "")
    (hzero : D.Contexts.length = 0) :
    GetCurrentContext o s w = (Except.ok "", s, w1) := by
  have hs : ({ s with currentContext := "" } : Vars) = s := by
    cases s
    simp only at hun
    simp [hun]
  simp [GetCurrentContext, hun, hload, adoptFirstContext, hcur, hzero, hs]

/-- Witness for the amended C10: the initial state with `docNoContext` as default
kubeconfig. -/
theorem GetCurrentContext_no_context_witness :
    GetCurrentContext (okOracle 0) Vars.init (worldOf (FileState.doc docNoContext))
      = (Except.ok "", Vars.init,
        (worldOf (FileState.doc docNoContext)).log (Event.getStartingConfig "")) :=
  GetCurrentContext_no_context (okOracle 0) Vars.init (worldOf (FileState.doc docNoContext))
    ((worldOf (FileState.doc docNoContext)).log (Event.getStartingConfig "")) docNoContext
    rfl rfl rfl rfl

/-! ## Context resolution, continued: claims C11 to C13 -/

theorem GetKubeConfig_persistCalls (s : Vars) (w : World) :
    persistCalls (GetKubeConfig s w).2 = persistCalls w := by
  unfold GetKubeConfig persistCalls
  split
  · split
    · simp [World.log, isPersist]
    · split <;> simp [World.log, isPersist]
  · split <;> simp [World.log, isPersist]

theorem GetCurrentContext_persistCalls (o : Oracle) (s : Vars) (w : World) :
    persistCalls (GetCurrentContext o s w).2.2 = persistCalls w := by
  have hk := GetKubeConfig_persistCalls s w
  unfold GetCurrentContext
  split
  · rfl
  · split
    · rename_i heq
      rw [heq] at hk
      exact hk
    · rename_i heq
      rw [heq] at hk
      exact hk

/-- Claim C11 as stated fails. With `docNoCurrent` as default kubeconfig (empty current
context, contexts `a` and `b`), two resolutions from the unresolved state that differ
only in where Go starts the map iteration return `a` and `b`. -/
theorem GetCurrentContext_fallback_counterexample :
    docNoCurrent.CurrentContext = "" ∧
    docNoCurrent.Contexts.length = 2 ∧
    (GetCurrentContext (okOracle 0) (ResetCurrentContext Vars.init)
      (worldOf (FileState.doc docNoCurrent))).1 = Except.ok "a" ∧
    (GetCurrentContext (okOracle 1) (ResetCurrentContext Vars.init)
      (worldOf (FileState.doc docNoCurrent))).1 = Except.ok "b" := by
  decide

/-- Claim C12 as stated fails: `docNoCluster` fails `isValidConfig`, yet with it as
default kubeconfig `GetCurrentContext` from the initial state returns `a` with no error
and `currentContext` becomes `a`. -/
theorem GetCurrentContext_invalid_document_counterexample :
    isValidConfig docNoCluster = false ∧
    (GetCurrentContext (okOracle 0) Vars.init (worldOf (FileState.doc docNoCluster))).1
      = Except.ok "a" ∧
    (GetCurrentContext (okOracle 0) Vars.init
      (worldOf (FileState.doc docNoCluster))).2.1.currentContext = "a" := by
  decide

/-- Claim C12, amended. `GetCurrentContext` does not validate. Called with
`currentContext` unresolved, it returns an error, leaving the package variables as they
were, exactly when the document fails to load. For every document `D` that loads,
whatever `isValidConfig D` is, it returns a name `c` with no error and `currentContext`
becomes `c`: `D.CurrentContext` when non-empty, otherwise a key of `D.Contexts` when there
is one, otherwise the empty name. -/
theorem GetCurrentContext_does_not_validate (o : Oracle) (s : Vars) (w : World)
    (hun : s.currentContext = "") :
    (∀ e w1, GetKubeConfig s w = (Except.error e, w1) →
      GetCurrentContext o s w = (Except.error e, s, w1)) ∧
    (∀ D w1, GetKubeConfig s w = (Except.ok D, w1) →
      ∃ c, (GetCurrentContext o s w).1 = Except.ok c ∧
        (GetCurrentContext o s w).2.1.currentContext = c ∧
        (D.CurrentContext ≠ "" → c = D.CurrentContext) ∧
        (D.CurrentContext = "" → D.Contexts.length > 0 → hasKey D.Contexts c = true) ∧
        (D.CurrentContext = "" → D.Contexts.length = 0 → c = "")) := by
  constructor
  · intro e w1 hload
    simp [GetCurrentContext, hun, hload]
  · intro D w1 hload
    by_cases hcur : D.CurrentContext = ""
    · by_cases hctx : D.Contexts.length > 0
      · obtain ⟨name, hname, hkey⟩ := rangeFirst_some o.rangeSeed D.Contexts hctx
        refine ⟨name, ?_, ?_, fun h => absurd hcur h, fun _ _ => hkey, ?_⟩
        · simp [GetCurrentContext, hun, hload, adoptFirstContext, hcur, hctx, hname]
        · simp [GetCurrentContext, hun, hload, adoptFirstContext, hcur, hctx, hname]
        · intro _ hz
          omega
      · refine ⟨"", ?_, ?_, fun h => absurd hcur h, fun _ h => absurd h hctx, fun _ _ => rfl⟩
        · simp [GetCurrentContext, hun, hload, adoptFirstContext, hcur, hctx]
        · simp [GetCurrentContext, hun, hload, adoptFirstContext, hcur, hctx]
    · refine ⟨D.CurrentContext, ?_, ?_, fun _ => rfl, fun h => absurd h hcur,
        fun h => absurd h hcur⟩
      · simp [GetCurrentContext, hun, hload, adoptFirstContext, hcur]
      · simp [GetCurrentContext, hun, hload, adoptFirstContext, hcur]

/-- Witness for the amended C12: the initial state, with the invalid `docNoCluster` as
default kubeconfig, resolves to `a`; with an unparseable kubeconfig it returns the load
error and stays as it was. -/
theorem GetCurrentContext_does_not_validate_witness :
    (∃ c, (GetCurrentContext (okOracle 0) Vars.init
        (worldOf (FileState.doc docNoCluster))).1 = Except.ok c ∧
      c = docNoCluster.CurrentContext) ∧
    GetCurrentContext (okOracle 0) Vars.init brokenWorld
      = (Except.error "error loading kubeconfig: yaml: line 1: did not find expected key",
        Vars.init, brokenWorld.log (Event.getStartingConfig "")) :=
  have h1 := (GetCurrentContext_does_not_validate (okOracle 0) Vars.init
    (worldOf (FileState.doc docNoCluster)) rfl).2 docNoCluster
    ((worldOf (FileState.doc docNoCluster)).log (Event.getStartingConfig "")) rfl
  have h2 := (GetCurrentContext_does_not_validate (okOracle 0) Vars.init brokenWorld rfl).1
    "error loading kubeconfig: yaml: line 1: did not find expected key"
    (brokenWorld.log (Event.getStartingConfig "")) rfl
  ⟨h1.elim fun c hc => ⟨c, hc.1, hc.2.2.1 (by decide)⟩, h2⟩

/-- Claim C13 as stated fails: with `docNoCurrent` as default kubeconfig, the first
`GetCurrentContext` from the initial state returns `a`, makes no persist call, and the
kubeconfig is still `docNoCurrent`, whose current context is empty. -/
theorem GetCurrentContext_persists_counterexample :
    (GetCurrentContext (okOracle 0) Vars.init (worldOf (FileState.doc docNoCurrent))).1
      = Except.ok "a" ∧
    persistCalls (GetCurrentContext (okOracle 0) Vars.init
      (worldOf (FileState.doc docNoCurrent))).2.2 = [] ∧
    (GetCurrentContext (okOracle 0) Vars.init
      (worldOf (FileState.doc docNoCurrent))).2.2.fileOf "" = FileState.doc docNoCurrent ∧
    docNoCurrent.CurrentContext ≠ "a" := by
  decide

/-- Claim C13, amended. For a document `D` that loads with an empty current context and
at least one context, `GetCurrentContext` called with `currentContext` unresolved returns
a key `c` of `D.Contexts` and keeps it in `currentContext` only: it makes no persist
call, the files are unchanged, and the document loads again as `D`, whose current context
is still empty. -/
theorem GetCurrentContext_memoizes_in_memory_only (o : Oracle) (s : Vars) (w w1 : World)
    (D : Config)
    (hun : s.currentContext = "")
    (hload : GetKubeConfig s w = (Except.ok D, w1))
    (hcur : D.CurrentContext = "")
    (hctx : D.Contexts.length > 0) :
    ∃ c, (GetCurrentContext o s w).1 = Except.ok c ∧
      hasKey D.Contexts c = true ∧
      (GetCurrentContext o s w).2.1.currentContext = c ∧
      persistCalls (GetCurrentContext o s w).2.2 = persistCalls w ∧
      (GetCurrentContext o s w).2.2.defaultFile = w.defaultFile ∧
      (GetCurrentContext o s w).2.2.files = w.files ∧
      (GetKubeConfig (GetCurrentContext o s w).2.1 (GetCurrentContext o s w).2.2).1
        = Except.ok D := by
  obtain ⟨name, hname, hkey⟩ := rangeFirst_some o.rangeSeed D.Contexts hctx
  have hfr := GetCurrentContext_frame o s w
  refine ⟨name, ?_, hkey, ?_, GetCurrentContext_persistCalls o s w, hfr.2.2.2.1,
    hfr.2.2.2.2.1, ?_⟩
  · simp [GetCurrentContext, hun, hload, adoptFirstContext, hcur, hctx, hname]
  · simp [GetCurrentContext, hun, hload, adoptFirstContext, hcur, hctx, hname]
  · rw [GetKubeConfig_congr s _ w _ hfr.1 hfr.2.2.2.1 hfr.2.2.2.2.1, hload]

/-- Witness for the amended C13: the initial state with `docNoCurrent` as default
kubeconfig. -/
theorem GetCurrentContext_memoizes_in_memory_only_witness :
    ∃ c, (GetCurrentContext (okOracle 1) Vars.init
        (worldOf (FileState.doc docNoCurrent))).1 = Except.ok c ∧
      hasKey docNoCurrent.Contexts c = true ∧
      persistCalls (GetCurrentContext (okOracle 1) Vars.init
        (worldOf (FileState.doc docNoCurrent))).2.2
        = persistCalls (worldOf (FileState.doc docNoCurrent)) :=
  (GetCurrentContext_memoizes_in_memory_only (okOracle 1) Vars.init
    (worldOf (FileState.doc docNoCurrent))
    ((worldOf (FileState.doc docNoCurrent)).log (Event.getStartingConfig "")) docNoCurrent
    rfl rfl rfl (by decide)).elim fun c hc => ⟨c, hc.1, hc.2.1, hc.2.2.2.1⟩

/-! ## Context switch, continued: claims C14 to C16 -/

/-- Claim C14. When the document loads and `contextName` is not one of its contexts,
`switchContextInternal` returns the error "context 'contextName' does not exist in
kubeconfig", leaves the package variables (`currentContext`, the configuration location
and both slots) as they were, makes no persist call and leaves the files unchanged. -/
theorem switchContextInternal_unknown_context (o : Oracle) (s : Vars) (w w1 : World)
    (D : Config) (contextName : String)
    (hload : GetKubeConfig s w = (Except.ok D, w1))
    (hkey : hasKey D.Contexts contextName = false) :
    (switchContextInternal o contextName s w).1
      = Except.error ("context '" ++ contextName ++ "' does not exist in kubeconfig") ∧
    (switchContextInternal o contextName s w).2.1 = s ∧
    persistCalls (switchContextInternal o contextName s w).2.2 = persistCalls w ∧
    (switchContextInternal o contextName s w).2.2.defaultFile = w.defaultFile ∧
    (switchContextInternal o contextName s w).2.2.files = w.files := by
  have hfr := GetKubeConfig_frame s w
  have hpc := GetKubeConfig_persistCalls s w
  rw [hload] at hfr hpc
  simp only [switchContextInternal, hload, hkey]
  exact ⟨rfl, rfl, hpc, hfr.1, hfr.2.1⟩

/-- Witness for C14: the initial state with `docAB` as default kubeconfig, switching to
the undeclared context `zz`. -/
theorem switchContextInternal_unknown_context_witness :
    (switchContextInternal (okOracle 0) "zz" Vars.init (worldOf (FileState.doc docAB))).1
      = Except.error "context 'zz' does not exist in kubeconfig" ∧
    (switchContextInternal (okOracle 0) "zz" Vars.init
      (worldOf (FileState.doc docAB))).2.1 = Vars.init :=
  have h := switchContextInternal_unknown_context (okOracle 0) Vars.init
    (worldOf (FileState.doc docAB))
    ((worldOf (FileState.doc docAB)).log (Event.getStartingConfig "")) docAB "zz" rfl
    (by decide)
  ⟨h.1, h.2.1⟩

/-- Claim C15. When the document loads, `contextName` is one of its contexts and is the
context `GetCurrentContext` resolves, `switchContextInternal` returns the text "Already
using context 'contextName'" with no error, makes no persist call, and leaves the files,
the configuration location and both slots unchanged. -/
theorem switchContextInternal_already_active (o : Oracle) (s : Vars) (w w1 : World)
    (D : Config) (contextName : String)
    (hload : GetKubeConfig s w = (Except.ok D, w1))
    (hkey : hasKey D.Contexts contextName = true)
    (hsame : (GetCurrentContext o s w1).1 = Except.ok contextName) :
    (switchContextInternal o contextName s w).1
      = Except.ok ("Already using context '" ++ contextName ++ "'") ∧
    persistCalls (switchContextInternal o contextName s w).2.2 = persistCalls w ∧
    (switchContextInternal o contextName s w).2.2.defaultFile = w.defaultFile ∧
    (switchContextInternal o contextName s w).2.2.files = w.files ∧
    (switchContextInternal o contextName s w).2.1.customKubeconfigPath
      = s.customKubeconfigPath ∧
    (switchContextInternal o contextName s w).2.1.clientsetPointer = s.clientsetPointer ∧
    (switchContextInternal o contextName s w).2.1.kruiseClientPointer
      = s.kruiseClientPointer := by
  have hfr := GetKubeConfig_frame s w
  have hpc := GetKubeConfig_persistCalls s w
  rw [hload] at hfr hpc
  have hgf := GetCurrentContext_frame o s w1
  have hgp := GetCurrentContext_persistCalls o s w1
  rcases hgc : GetCurrentContext o s w1 with ⟨r, s2, w2⟩
  rw [hgc] at hsame hgf hgp
  simp only at hsame hgf hgp
  subst hsame
  simp only [switchContextInternal, hload, hkey, hgc]
  simp only [Bool.not_true, Bool.false_eq_true, if_false, if_true]
  exact ⟨trivial, hgp.trans hpc, hgf.2.2.2.1.trans hfr.1, hgf.2.2.2.2.1.trans hfr.2.1,
    hgf.1, hgf.2.1, hgf.2.2.1⟩

/-- Witness for C15: `currentContext` is `a` and the switch target is `a`. -/
theorem switchContextInternal_already_active_witness :
    (switchContextInternal persistFailOracle "a" resolvedCached worldAfterTwo).1
      = Except.ok "Already using context 'a'" ∧
    persistCalls (switchContextInternal persistFailOracle "a" resolvedCached
      worldAfterTwo).2.2 = persistCalls worldAfterTwo ∧
    (switchContextInternal persistFailOracle "a" resolvedCached
      worldAfterTwo).2.1.clientsetPointer = resolvedCached.clientsetPointer :=
  have h := switchContextInternal_already_active persistFailOracle resolvedCached
    worldAfterTwo (worldAfterTwo.log (Event.getStartingConfig "")) docAB "a" rfl
    (by decide) (by decide)
  ⟨h.1, h.2.1, h.2.2.2.2.2.1⟩

theorem writeDoc_trace (w : World) (path : String) (c : Config) :
    (w.writeDoc path c).trace = w.trace := by
  unfold World.writeDoc
  split <;> rfl

/-- Every call of `ModifyConfig`, failing or not, is one persist call in the log. -/
theorem ModifyConfig_persistCalls (o : Oracle) (path : String) (c : Config) (w : World) :
    persistCalls (ModifyConfig o path c w).2
      = persistCalls w ++ [Event.modifyConfig path c] := by
  unfold ModifyConfig persistCalls
  cases o.modifyConfigErr <;> simp [writeDoc_trace, World.log, isPersist]

/-- Claim C16. When the document loads as `D` and `switchContextInternal` succeeds, either
the target was already active and no persist call is added, or exactly one persist call
is added, for the configuration location, and its document is `D` with only the current
context replaced by `contextName`: clusters, users and contexts are those of `D`. -/
theorem switchContextInternal_persists_loaded_document (o : Oracle) (s : Vars)
    (w w1 : World) (D : Config) (contextName msg : String)
    (hload : GetKubeConfig s w = (Except.ok D, w1))
    (hok : (switchContextInternal o contextName s w).1 = Except.ok msg) :
    ∃ calls, persistCalls (switchContextInternal o contextName s w).2.2
        = persistCalls w ++ calls ∧
      ((msg = "Already using context '" ++ contextName ++ "'" ∧ calls = []) ∨
        (msg = "Switched to context '" ++ contextName ++ "'" ∧
          calls = [Event.modifyConfig s.customKubeconfigPath
            { D with CurrentContext := contextName }])) ∧
      (∀ p d, Event.modifyConfig p d ∈ calls →
        p = s.customKubeconfigPath ∧ d.Clusters = D.Clusters ∧
        d.AuthInfos = D.AuthInfos ∧ d.Contexts = D.Contexts ∧
        d.CurrentContext = contextName) := by
  have hpc := GetKubeConfig_persistCalls s w
  rw [hload] at hpc
  simp only at hpc
  have hgf := GetCurrentContext_frame o s w1
  have hgp := GetCurrentContext_persistCalls o s w1
  unfold switchContextInternal at hok ⊢
  simp only [hload] at hok ⊢
  by_cases hkey : hasKey D.Contexts contextName = true
  · simp only [hkey, Bool.not_true, Bool.false_eq_true, if_false] at hok ⊢
    rcases hgc : GetCurrentContext o s w1 with ⟨r, s2, w2⟩
    simp only [hgc] at hok hgf hgp ⊢
    cases r with
    | error err => simp at hok
    | ok currentCtx =>
      simp only at hok ⊢
      by_cases hsame : currentCtx = contextName
      · simp only [hsame, if_true] at hok ⊢
        have hmsg : msg = "Already using context '" ++ contextName ++ "'" :=
          (Except.ok.inj hok).symm
        refine ⟨[], ?_, Or.inl ⟨hmsg, rfl⟩, ?_⟩
        · simp [hgp, hpc]
        · intro p d hmem
          simp at hmem
      · simp only [hsame, if_false] at hok ⊢
        have hmp := ModifyConfig_persistCalls o (GetCustomKubeconfigPath s2)
          { D with CurrentContext := contextName } w2
        rcases hmc : ModifyConfig o (GetCustomKubeconfigPath s2)
          { D with CurrentContext := contextName } w2 with ⟨rm, w3⟩
        simp only [hmc] at hok hmp ⊢
        cases rm with
        | error err => simp at hok
        | ok u =>
          simp only at hok ⊢
          have hmsg : msg = "Switched to context '" ++ contextName ++ "'" :=
            (Except.ok.inj hok).symm
          have hpath : GetCustomKubeconfigPath s2 = s.customKubeconfigPath := hgf.1
          rw [hpath] at hmp
          refine ⟨[Event.modifyConfig s.customKubeconfigPath
            { D with CurrentContext := contextName }], ?_, Or.inr ⟨hmsg, rfl⟩, ?_⟩
          · rw [hmp, hgp, hpc]
          · intro p d hmem
            simp only [List.mem_singleton, Event.modifyConfig.injEq] at hmem
            obtain ⟨hp, hd⟩ := hmem
            subst hd
            exact ⟨hp, rfl, rfl, rfl, rfl⟩
  · simp only [Bool.not_eq_true] at hkey
    simp [hkey] at hok

/-- Witness for C16: the switch from `a` to `b` on `docAB` hands `docAB` with current
context `b` to the one persist call. -/
theorem switchContextInternal_persists_loaded_document_witness :
    ∃ calls, persistCalls (switchContextInternal (okOracle 0) "b" Vars.init
        (worldOf (FileState.doc docAB))).2.2
        = persistCalls (worldOf (FileState.doc docAB)) ++ calls ∧
      ∀ p d, Event.modifyConfig p d ∈ calls →
        p = Vars.init.customKubeconfigPath ∧ d.Clusters = docAB.Clusters ∧
        d.AuthInfos = docAB.AuthInfos ∧ d.Contexts = docAB.Contexts ∧
        d.CurrentContext = "b" :=
  (switchContextInternal_persists_loaded_document (okOracle 0) Vars.init
    (worldOf (FileState.doc docAB))
    ((worldOf (FileState.doc docAB)).log (Event.getStartingConfig "")) docAB "b"
    "Switched to context 'b'" rfl (by decide)).elim fun calls h => ⟨calls, h.1, h.2.2⟩

/-! ## Setting the configuration location: claims C17 to C19 -/

/-- Claim C17 at its failing input. The file at `/k/config` is the valid document
`docNoCurrent`, whose current context is empty. `setKubeconfigPathInternal` succeeds and
reports the auto-selected context `a`, `currentContext` is `a`, but no persist call is
made and the file is still `docNoCurrent` with an empty current context. -/
theorem setKubeconfigPathInternal_writeback_failing_input :
    isValidConfig docNoCurrent = true ∧
    docNoCurrent.CurrentContext = "" ∧
    (setKubeconfigPathInternal (okOracle 0) "/k/config" Vars.init
      (worldWithFile "/k/config" (FileState.doc docNoCurrent))).1
      = Except.ok "Kubeconfig path has been set to /k/config, current context: a" ∧
    (setKubeconfigPathInternal (okOracle 0) "/k/config" Vars.init
      (worldWithFile "/k/config" (FileState.doc docNoCurrent))).2.1.currentContext = "a" ∧
    persistCalls (setKubeconfigPathInternal (okOracle 0) "/k/config" Vars.init
      (worldWithFile "/k/config" (FileState.doc docNoCurrent))).2.2 = [] ∧
    (setKubeconfigPathInternal (okOracle 0) "/k/config" Vars.init
      (worldWithFile "/k/config" (FileState.doc docNoCurrent))).2.2.fileOf "/k/config"
      = FileState.doc docNoCurrent := by
  decide

/-- A document found at an explicit path: the path is not empty. -/
theorem fileAt_doc (w : World) (path : String) (D : Config)
    (h : w.fileAt path = FileState.doc D) :
    path ≠ "" ∧ w.files path = FileState.doc D := by
  unfold World.fileAt at h
  by_cases hp : path = ""
  · simp [hp] at h
  · simp only [if_neg hp] at h
    exact ⟨hp, h⟩

/-- `ValidateAndFixKubeconfig` only appends reads to the log. -/
theorem ValidateAndFixKubeconfig_frame (path : String) (w : World) :
    (ValidateAndFixKubeconfig path w).2.defaultFile = w.defaultFile ∧
    (ValidateAndFixKubeconfig path w).2.files = w.files ∧
    (ValidateAndFixKubeconfig path w).2.nextId = w.nextId ∧
    persistCalls (ValidateAndFixKubeconfig path w).2 = persistCalls w := by
  unfold ValidateAndFixKubeconfig persistCalls
  split
  · simp [World.log, isPersist]
  · split
    · simp [World.log, isPersist]
    · split
      · simp [World.log, isPersist]
      · split <;> simp [World.log, isPersist]

/-- `ValidateAndFixKubeconfig` accepts a file that holds a valid document. -/
theorem ValidateAndFixKubeconfig_ok (path : String) (w : World) (D : Config)
    (hfile : w.fileAt path = FileState.doc D) (hvalid : isValidConfig D = true) :
    (ValidateAndFixKubeconfig path w).1 = Except.ok () := by
  simp [ValidateAndFixKubeconfig, statIsNotExist, readFileErr, LoadFromFile, hfile, hvalid]

/-- `ValidateAndFixKubeconfig` rejects everything that is not a valid document. -/
theorem ValidateAndFixKubeconfig_error (path : String) (w : World)
    (hbad : ∀ D, w.fileAt path = FileState.doc D → isValidConfig D = false) :
    ∃ e, (ValidateAndFixKubeconfig path w).1 = Except.error e := by
  cases hf : w.fileAt path with
  | absent =>
    exact ⟨"kubeconfig file does not exist: " ++ path,
      by simp [ValidateAndFixKubeconfig, statIsNotExist, hf]⟩
  | unreadable err =>
    exact ⟨"unable to read kubeconfig file: " ++ err,
      by simp [ValidateAndFixKubeconfig, statIsNotExist, readFileErr, hf]⟩
  | malformed err =>
    exact ⟨"invalid kubeconfig file format: " ++ err,
      by simp [ValidateAndFixKubeconfig, statIsNotExist, readFileErr, LoadFromFile, hf]⟩
  | doc D =>
    exact ⟨"invalid kubeconfig configuration, must contain at least one cluster, context, and user",
      by simp [ValidateAndFixKubeconfig, statIsNotExist, readFileErr, LoadFromFile, hf,
        hbad D hf]⟩

/-- With a custom path whose file holds a document, `GetKubeConfig` returns it. -/
theorem GetKubeConfig_custom (s : Vars) (w : World) (D : Config)
    (hfile : w.fileAt s.customKubeconfigPath = FileState.doc D) :
    (GetKubeConfig s w).1 = Except.ok D := by
  obtain ⟨hp, hf⟩ := fileAt_doc w _ D hfile
  simp [GetKubeConfig, hp, LoadFromFile, hfile, GetStartingConfig, World.fileOf, hf]

/-- Resolution from the unresolved state when the document loads. -/
theorem GetCurrentContext_unresolved_load (o : Oracle) (s : Vars) (w w1 : World) (D : Config)
    (hun : s.currentContext = "")
    (hload : GetKubeConfig s w = (Except.ok D, w1)) :
    GetCurrentContext o s w =
      (Except.ok (adoptFirstContext o.rangeSeed D
          { s with currentContext := D.CurrentContext }).currentContext,
        adoptFirstContext o.rangeSeed D { s with currentContext := D.CurrentContext }, w1) := by
  simp [GetCurrentContext, hun, hload]

/-- The name `adoptFirstContext` leaves in `currentContext`. -/
theorem adoptFirstContext_currentContext (seed : Nat) (D : Config) (s : Vars) :
    (D.CurrentContext ≠ "" →
      (adoptFirstContext seed D { s with currentContext := D.CurrentContext }).currentContext
        = D.CurrentContext) ∧
    (D.CurrentContext = "" → D.Contexts.length > 0 →
      hasKey D.Contexts
        (adoptFirstContext seed D { s with currentContext := D.CurrentContext }).currentContext
        = true) := by
  constructor
  · intro h
    simp [adoptFirstContext, h]
  · intro h hlen
    obtain ⟨name, hname, hkey⟩ := rangeFirst_some seed D.Contexts hlen
    simp [adoptFirstContext, h, hlen, hname, hkey]

theorem fileAt_congr (w w1 : World) (path : String) (hf : w1.files = w.files) :
    w1.fileAt path = w.fileAt path := by
  simp [World.fileAt, hf]

theorem resolvedAt_frame (o : Oracle) (path : String) (D : Config) :
    (resolvedAt o path D).customKubeconfigPath = path ∧
    (resolvedAt o path D).clientsetPointer = none ∧
    (resolvedAt o path D).kruiseClientPointer = none :=
  adoptFirstContext_frame o.rangeSeed D _

/-- The steps of `setKubeconfigPathInternal` up to the test `ctx == ""`, for a file that
holds a valid document: validation passes, the context is resolved from `D`, and the
document is loaded again. -/
theorem setKubeconfigPathInternal_steps (o : Oracle) (path : String) (s : Vars) (w : World)
    (D : Config)
    (hfile : w.fileAt path = FileState.doc D) (hvalid : isValidConfig D = true) :
    ∃ w3, w3.files = w.files ∧ w3.defaultFile = w.defaultFile ∧
      persistCalls w3 = persistCalls w ∧
      setKubeconfigPathInternal o path s w =
        if (resolvedAt o path D).currentContext = "" then
          if D.Contexts.length > 0 then
            match rangeFirst o.handlerSeed D.Contexts with
            | some name =>
              match ModifyConfig o path { D with CurrentContext := name } w3 with
              | (Except.error writeErr, w4) =>
                (Except.error ("failed to save kubeconfig file: " ++ writeErr),
                  resolvedAt o path D, w4)
              | (Except.ok _, w4) =>
                (Except.ok (pathSetText path name),
                  ClearClientCache (SetCurrentContext name (resolvedAt o path D)), w4)
            | none =>
              (Except.ok (pathSetText path (resolvedAt o path D).currentContext),
                resolvedAt o path D, w3)
          else
            (Except.ok (pathSetText path (resolvedAt o path D).currentContext),
              resolvedAt o path D, w3)
        else
          (Except.ok (pathSetText path (resolvedAt o path D).currentContext),
            resolvedAt o path D, w3) := by
  have hvf := ValidateAndFixKubeconfig_frame path w
  have hvok := ValidateAndFixKubeconfig_ok path w D hfile hvalid
  rcases hv : ValidateAndFixKubeconfig path w with ⟨rv, wv⟩
  rw [hv] at hvf hvok
  simp only at hvf hvok
  subst hvok
  have hfile1 : wv.fileAt path = FileState.doc D := by
    rw [fileAt_congr w wv path hvf.2.1, hfile]
  have hk1ok := GetKubeConfig_custom
    (ClearClientCache (ResetCurrentContext (SetCustomKubeconfigPath path s))) wv D hfile1
  have hk1f := GetKubeConfig_frame
    (ClearClientCache (ResetCurrentContext (SetCustomKubeconfigPath path s))) wv
  have hk1p := GetKubeConfig_persistCalls
    (ClearClientCache (ResetCurrentContext (SetCustomKubeconfigPath path s))) wv
  rcases hk1 : GetKubeConfig
    (ClearClientCache (ResetCurrentContext (SetCustomKubeconfigPath path s))) wv
    with ⟨rk1, w2⟩
  rw [hk1] at hk1ok hk1f hk1p
  simp only at hk1ok hk1f hk1p
  subst hk1ok
  have hgc := GetCurrentContext_unresolved_load o
    (ClearClientCache (ResetCurrentContext (SetCustomKubeconfigPath path s))) wv w2 D rfl hk1
  have hs2 : adoptFirstContext o.rangeSeed D
      { ClearClientCache (ResetCurrentContext (SetCustomKubeconfigPath path s)) with
        currentContext := D.CurrentContext } = resolvedAt o path D := rfl
  rw [hs2] at hgc
  have hfile2 : w2.fileAt (resolvedAt o path D).customKubeconfigPath = FileState.doc D := by
    rw [(resolvedAt_frame o path D).1, fileAt_congr wv w2 path hk1f.2.1, hfile1]
  have hk2ok := GetKubeConfig_custom (resolvedAt o path D) w2 D hfile2
  have hk2f := GetKubeConfig_frame (resolvedAt o path D) w2
  have hk2p := GetKubeConfig_persistCalls (resolvedAt o path D) w2
  rcases hk2 : GetKubeConfig (resolvedAt o path D) w2 with ⟨rk2, w3⟩
  rw [hk2] at hk2ok hk2f hk2p
  simp only at hk2ok hk2f hk2p
  subst hk2ok
  refine ⟨w3, ?_, ?_, ?_, ?_⟩
  · rw [hk2f.2.1, hk1f.2.1, hvf.2.1]
  · rw [hk2f.1, hk1f.1, hvf.1]
  · rw [hk2p, hk1p, hvf.2.2.2]
  · simp only [setKubeconfigPathInternal, hv, hgc, hk2, GetCustomKubeconfigPath,
      (resolvedAt_frame o path D).1, pathSetText]

theorem resolvedAt_currentContext (o : Oracle) (path : String) (D : Config) :
    (D.CurrentContext ≠ "" → (resolvedAt o path D).currentContext = D.CurrentContext) ∧
    (D.CurrentContext = "" → D.Contexts.length > 0 →
      hasKey D.Contexts (resolvedAt o path D).currentContext = true) :=
  adoptFirstContext_currentContext o.rangeSeed D
    { currentContext := "", customKubeconfigPath := path,
      clientsetPointer := none, kruiseClientPointer := none }

/-- Once validation passes, `setKubeconfigPathInternal` does not look at the prior
package variables. -/
theorem setKubeconfigPathInternal_prior_state (o : Oracle) (path : String) (s s1 : Vars)
    (w : World) (hv : (ValidateAndFixKubeconfig path w).1 = Except.ok ()) :
    setKubeconfigPathInternal o path s1 w = setKubeconfigPathInternal o path s w := by
  unfold setKubeconfigPathInternal
  rcases hvr : ValidateAndFixKubeconfig path w with ⟨rv, wv⟩
  rw [hvr] at hv
  simp only at hv
  subst hv
  rfl

theorem isValidConfig_contexts (D : Config) (h : isValidConfig D = true) :
    D.Contexts.length > 0 := by
  simp [isValidConfig] at h
  exact h.1.2

/-- Claim C18. For every prior state and every valid document `D` in the file at `path`,
when `setKubeconfigPathInternal path` succeeds the configuration location is `path`, both
slots are empty, `currentContext` is `D.CurrentContext` when that is non-empty and
otherwise a key of `D.Contexts`, the returned text is "Kubeconfig path has been set to
path, current context: " followed by `currentContext`, and the outcome is the same from
every other prior state, so nothing resolved before the call survives. -/
theorem setKubeconfigPathInternal_success (o : Oracle) (path : String) (s : Vars)
    (w : World) (D : Config) (msg : String)
    (hfile : w.fileAt path = FileState.doc D) (hvalid : isValidConfig D = true)
    (hok : (setKubeconfigPathInternal o path s w).1 = Except.ok msg) :
    (setKubeconfigPathInternal o path s w).2.1.customKubeconfigPath = path ∧
    (setKubeconfigPathInternal o path s w).2.1.clientsetPointer = none ∧
    (setKubeconfigPathInternal o path s w).2.1.kruiseClientPointer = none ∧
    (D.CurrentContext ≠ "" →
      (setKubeconfigPathInternal o path s w).2.1.currentContext = D.CurrentContext) ∧
    (D.CurrentContext = "" →
      hasKey D.Contexts (setKubeconfigPathInternal o path s w).2.1.currentContext = true) ∧
    msg = "Kubeconfig path has been set to " ++ path ++ ", current context: "
      ++ (setKubeconfigPathInternal o path s w).2.1.currentContext ∧
    (∀ s1, setKubeconfigPathInternal o path s1 w = setKubeconfigPathInternal o path s w) := by
  have hlen := isValidConfig_contexts D hvalid
  have hrc := resolvedAt_currentContext o path D
  have hrf := resolvedAt_frame o path D
  have hprior := fun s1 => setKubeconfigPathInternal_prior_state o path s s1 w
    (ValidateAndFixKubeconfig_ok path w D hfile hvalid)
  obtain ⟨w3, -, -, -, heq⟩ := setKubeconfigPathInternal_steps o path s w D hfile hvalid
  rw [heq] at hok ⊢
  refine ⟨?_, ?_, ?_, ?_, ?_, ?_, fun s1 => (hprior s1).trans heq⟩
  all_goals
    by_cases hctx : (resolvedAt o path D).currentContext = ""
    · have hcur : D.CurrentContext = "" := by
        by_contra hne
        rw [hrc.1 hne] at hctx
        exact hne hctx
      obtain ⟨name, hname, hkey⟩ := rangeFirst_some o.handlerSeed D.Contexts hlen
      simp only [hctx, hlen, hname, if_true, ModifyConfig] at hok ⊢
      cases hm : o.modifyConfigErr with
      | some err =>
        rw [hm] at hok
        simp at hok
      | none =>
        rw [hm] at hok
        simp only at hok ⊢
        first
          | exact hrf.1
          | rfl
          | exact fun h => absurd hcur h
          | exact fun _ => hkey
          | exact (Except.ok.inj hok).symm
    · simp only [hctx, if_false] at hok ⊢
      first
        | exact hrf.1
        | exact hrf.2.1
        | exact hrf.2.2
        | exact hrc.1
        | exact fun h => hrc.2 h hlen
        | exact (Except.ok.inj hok).symm

/-- Witness for C18: from `resolvedCached` (context `a`, both slots filled), setting the
path to a file that holds `docNoCurrent`, with the map iteration starting at `b`. -/
theorem setKubeconfigPathInternal_success_witness :
    (setKubeconfigPathInternal (okOracle 1) "/k/config" resolvedCached
      (worldWithFile "/k/config" (FileState.doc docNoCurrent))).2.1
      = { currentContext := "b", customKubeconfigPath := "/k/config",
          clientsetPointer := none, kruiseClientPointer := none } ∧
    "Kubeconfig path has been set to /k/config, current context: b"
      = "Kubeconfig path has been set to " ++ "/k/config" ++ ", current context: "
        ++ (setKubeconfigPathInternal (okOracle 1) "/k/config" resolvedCached
          (worldWithFile "/k/config" (FileState.doc docNoCurrent))).2.1.currentContext :=
  have h := setKubeconfigPathInternal_success (okOracle 1) "/k/config" resolvedCached
    (worldWithFile "/k/config" (FileState.doc docNoCurrent)) docNoCurrent
    "Kubeconfig path has been set to /k/config, current context: b"
    (by decide) (by decide) (by decide)
  ⟨by decide, h.2.2.2.2.2.1⟩

/-- Claim C19. When the file at `path` is absent, unreadable, unparseable, or holds a
document that fails `isValidConfig`, `setKubeconfigPathInternal path` returns an error,
makes no persist call, leaves the files unchanged and leaves the package variables (the
configuration location, `currentContext` and both slots) exactly as they were. When the
file holds a document with all three maps non-empty, `ValidateAndFixKubeconfig path`
returns no error. -/
theorem setKubeconfigPathInternal_rejects_bad_documents (o : Oracle) (path : String)
    (s : Vars) (w : World) :
    ((∀ D, w.fileAt path = FileState.doc D → isValidConfig D = false) →
      (∃ e, (setKubeconfigPathInternal o path s w).1 = Except.error e) ∧
      (setKubeconfigPathInternal o path s w).2.1 = s ∧
      persistCalls (setKubeconfigPathInternal o path s w).2.2 = persistCalls w ∧
      (setKubeconfigPathInternal o path s w).2.2.files = w.files ∧
      (setKubeconfigPathInternal o path s w).2.2.defaultFile = w.defaultFile) ∧
    (∀ D, w.fileAt path = FileState.doc D →
      D.Clusters.length > 0 → D.Contexts.length > 0 → D.AuthInfos.length > 0 →
      (ValidateAndFixKubeconfig path w).1 = Except.ok ()) := by
  constructor
  · intro hbad
    obtain ⟨e, he⟩ := ValidateAndFixKubeconfig_error path w hbad
    have hvf := ValidateAndFixKubeconfig_frame path w
    rcases hv : ValidateAndFixKubeconfig path w with ⟨rv, wv⟩
    rw [hv] at he hvf
    simp only at he hvf
    subst he
    simp only [setKubeconfigPathInternal, hv]
    exact ⟨⟨_, rfl⟩, trivial, hvf.2.2.2, hvf.2.1, hvf.1⟩
  · intro D hfile h1 h2 h3
    exact ValidateAndFixKubeconfig_ok path w D hfile (by simp [isValidConfig, h1, h2, h3])

/-- Witness for C19: the file holds the invalid `docNoCluster` and is rejected with the
state `resolvedCached` untouched; a file holding `docAB` passes validation. -/
theorem setKubeconfigPathInternal_rejects_bad_documents_witness :
    ((∃ e, (setKubeconfigPathInternal (okOracle 0) "/k/config" resolvedCached
        (worldWithFile "/k/config" (FileState.doc docNoCluster))).1 = Except.error e) ∧
      (setKubeconfigPathInternal (okOracle 0) "/k/config" resolvedCached
        (worldWithFile "/k/config" (FileState.doc docNoCluster))).2.1 = resolvedCached) ∧
    (ValidateAndFixKubeconfig "/k/config"
      (worldWithFile "/k/config" (FileState.doc docAB))).1 = Except.ok () :=
  have h1 := (setKubeconfigPathInternal_rejects_bad_documents (okOracle 0) "/k/config"
    resolvedCached (worldWithFile "/k/config" (FileState.doc docNoCluster))).1
    (fun D hD => by
      have hd : docNoCluster = D := FileState.doc.inj ((by decide : (worldWithFile "/k/config"
        (FileState.doc docNoCluster)).fileAt "/k/config" = FileState.doc docNoCluster).symm.trans
        hD)
      rw [← hd]
      decide)
  have h2 := (setKubeconfigPathInternal_rejects_bad_documents (okOracle 0) "/k/config"
    Vars.init (worldWithFile "/k/config" (FileState.doc docAB))).2 docAB (by decide)
    (by decide) (by decide) (by decide)
  ⟨⟨h1.1, h1.2.1⟩, h2⟩

/-! ## Validation: claim C20 -/

/-- Claim C20. `isValidConfig D` is true exactly when `D` has at least one cluster, at
least one context and at least one user; it is false as soon as one of the three maps is
empty; it does not depend on the current context, nor on the entries beyond the sizes of
the three maps. -/
theorem isValidConfig_iff (D : Config) :
    (isValidConfig D = true ↔
      D.Clusters.length > 0 ∧ D.Contexts.length > 0 ∧ D.AuthInfos.length > 0) ∧
    ((D.Clusters = [] ∨ D.Contexts = [] ∨ D.AuthInfos = []) → isValidConfig D = false) ∧
    (∀ cur, isValidConfig { D with CurrentContext := cur } = isValidConfig D) ∧
    (∀ D1 : Config, D1.Clusters.length = D.Clusters.length →
      D1.Contexts.length = D.Contexts.length → D1.AuthInfos.length = D.AuthInfos.length →
      isValidConfig D1 = isValidConfig D) := by
  refine ⟨?_, ?_, fun _ => rfl, ?_⟩
  · simp [isValidConfig, and_assoc]
  · intro h
    rcases h with h | h | h <;> simp [isValidConfig, h]
  · intro D1 h1 h2 h3
    simp [isValidConfig, h1, h2, h3]

/-! ## The fallback choice: claim C11 -/

/-- Every key of a map is the first name of the iteration for some start. -/
theorem rangeFirst_reaches {α : Type} (m : List (String × α)) (name : String)
    (h : hasKey m name = true) :
    ∃ seed, rangeFirst seed m = some name := by
  unfold hasKey at h
  rw [List.any_eq_true] at h
  obtain ⟨kv, hkv, hfst⟩ := h
  have hname : kv.1 = name := by simpa using hfst
  have hmem : name ∈ m.map Prod.fst := by
    rw [List.mem_map]
    exact ⟨kv, hkv, hname⟩
  obtain ⟨i, hi, hget⟩ := List.getElem_of_mem hmem
  have hlen : i < m.length := by simpa using hi
  refine ⟨i, ?_⟩
  unfold rangeFirst
  rw [Nat.mod_eq_of_lt hlen, List.getElem?_eq_getElem hi, hget]

/-- Claim C11, amended. For a document `D` that loads with an empty current context and
at least two contexts, `GetCurrentContext` called with `currentContext` unresolved returns
the name at which the map iteration starts, which is a key of `D.Contexts`; any other
call from an unresolved state on the same document with the same start returns the same
name; and every key of `D.Contexts` is returned for some start. -/
theorem GetCurrentContext_fallback_choice (o : Oracle) (s : Vars) (w w1 : World)
    (D : Config)
    (hun : s.currentContext = "")
    (hload : GetKubeConfig s w = (Except.ok D, w1))
    (hcur : D.CurrentContext = "")
    (htwo : D.Contexts.length ≥ 2) :
    (∃ c, (GetCurrentContext o s w).1 = Except.ok c ∧
      rangeFirst o.rangeSeed D.Contexts = some c ∧ hasKey D.Contexts c = true) ∧
    (∀ (o2 : Oracle) (s2 : Vars) (w2 w3 : World), s2.currentContext = "" →
      GetKubeConfig s2 w2 = (Except.ok D, w3) → o2.rangeSeed = o.rangeSeed →
      (GetCurrentContext o2 s2 w2).1 = (GetCurrentContext o s w).1) ∧
    (∀ name, hasKey D.Contexts name = true →
      ∃ o2 : Oracle, (GetCurrentContext o2 s w).1 = Except.ok name) := by
  have hlen : D.Contexts.length > 0 := by omega
  refine ⟨?_, ?_, ?_⟩
  · obtain ⟨name, hname, hkey⟩ := rangeFirst_some o.rangeSeed D.Contexts hlen
    exact ⟨name, by simp [GetCurrentContext, hun, hload, adoptFirstContext, hcur, hlen, hname],
      hname, hkey⟩
  · intro o2 s2 w2 w3 hun2 hload2 hseed
    rw [GetCurrentContext_unresolved_load o2 s2 w2 w3 D hun2 hload2,
      GetCurrentContext_unresolved_load o s w w1 D hun hload, hseed]
    simp [adoptFirstContext, hcur, hlen]
    cases rangeFirst o.rangeSeed D.Contexts <;> rfl
  · intro name hkey
    obtain ⟨seed, hseed⟩ := rangeFirst_reaches D.Contexts name hkey
    refine ⟨{ o with rangeSeed := seed }, ?_⟩
    simp [GetCurrentContext, hun, hload, adoptFirstContext, hcur, hlen, hseed]

/-- Witness for the amended C11: the initial state with `docNoCurrent` as default
kubeconfig and the iteration starting at the second entry. -/
theorem GetCurrentContext_fallback_choice_witness :
    ∃ c, (GetCurrentContext (okOracle 1) Vars.init
        (worldOf (FileState.doc docNoCurrent))).1 = Except.ok c ∧
      rangeFirst (okOracle 1).rangeSeed docNoCurrent.Contexts = some c ∧
      hasKey docNoCurrent.Contexts c = true :=
  (GetCurrentContext_fallback_choice (okOracle 1) Vars.init
    (worldOf (FileState.doc docNoCurrent))
    ((worldOf (FileState.doc docNoCurrent)).log (Event.getStartingConfig "")) docNoCurrent
    rfl rfl rfl (by decide)).1

/-! ## The write-back branch of `setKubeconfigPathInternal`: claim C28 -/

/-- Claim C28. When the file at `path` holds a valid document none of whose contexts is
named by the empty string, the context that `setKubeconfigPathInternal` resolves is never
empty, so the test `ctx == ""` fails: whatever the oracle, the call succeeds with the
resolved context in its text, leaves the resolved package variables in place, makes no
persist call and leaves the files unchanged. -/
theorem setKubeconfigPathInternal_writeback_unreachable (o : Oracle) (path : String)
    (s : Vars) (w : World) (D : Config)
    (hfile : w.fileAt path = FileState.doc D) (hvalid : isValidConfig D = true)
    (hnames : hasKey D.Contexts "" = false) :
    (resolvedAt o path D).currentContext ≠ "" ∧
    (setKubeconfigPathInternal o path s w).1
      = Except.ok ("Kubeconfig path has been set to " ++ path ++ ", current context: "
          ++ (resolvedAt o path D).currentContext) ∧
    (setKubeconfigPathInternal o path s w).2.1 = resolvedAt o path D ∧
    persistCalls (setKubeconfigPathInternal o path s w).2.2 = persistCalls w ∧
    (setKubeconfigPathInternal o path s w).2.2.files = w.files ∧
    (setKubeconfigPathInternal o path s w).2.2.defaultFile = w.defaultFile := by
  have hlen := isValidConfig_contexts D hvalid
  have hrc := resolvedAt_currentContext o path D
  have hctx : (resolvedAt o path D).currentContext ≠ "" := by
    intro h
    by_cases hcur : D.CurrentContext = ""
    · have hk := hrc.2 hcur hlen
      rw [h, hnames] at hk
      exact Bool.noConfusion hk
    · rw [hrc.1 hcur] at h
      exact hcur h
  obtain ⟨w3, hf, hd, hp, heq⟩ := setKubeconfigPathInternal_steps o path s w D hfile hvalid
  refine ⟨hctx, ?_⟩
  rw [heq]
  simp only [if_neg hctx]
  refine ⟨?_, ?_, hp, hf, hd⟩ <;> trivial

/-- Witness for C28: the file holds `docNoCurrent`, and even an oracle under which a
write would fail leaves the call successful and the log free of persist calls. -/
theorem setKubeconfigPathInternal_writeback_unreachable_witness :
    (setKubeconfigPathInternal persistFailOracle "/k/config" Vars.init
      (worldWithFile "/k/config" (FileState.doc docNoCurrent))).1
      = Except.ok ("Kubeconfig path has been set to " ++ "/k/config" ++ ", current context: "
          ++ (resolvedAt persistFailOracle "/k/config" docNoCurrent).currentContext) ∧
    persistCalls (setKubeconfigPathInternal persistFailOracle "/k/config" Vars.init
      (worldWithFile "/k/config" (FileState.doc docNoCurrent))).2.2
      = persistCalls (worldWithFile "/k/config" (FileState.doc docNoCurrent)) :=
  have h := setKubeconfigPathInternal_writeback_unreachable persistFailOracle "/k/config"
    Vars.init (worldWithFile "/k/config" (FileState.doc docNoCurrent)) docNoCurrent
    (by decide) (by decide) (by decide)
  ⟨h.2.1, h.2.2.2.1⟩

/-! ## The status of a pod: claims C25 and C26 -/

/-- The loop over the init container statuses always returns in its first iteration. -/
theorem initContainerLoop_first (total i : Nat) (status : ContainerStatus)
    (rest : List ContainerStatus) :
    initContainerLoop total i (status :: rest) = initContainerLoop total i [status] ∧
    (initContainerLoop total i (status :: rest)).isSome = true := by
  unfold initContainerLoop
  by_cases hw : hasWaitingReason status.State = true
  · simp [hw]
  · by_cases ht : hasTerminatedReason status.State = true
    · simp [hw, ht]
    · have hcond : (status.State.Terminated.isNone
          || terminatedReasonOf status.State == "") = true := by
        simp only [Bool.not_eq_true] at ht
        unfold hasTerminatedReason at ht
        unfold terminatedReasonOf
        cases hterm : status.State.Terminated with
        | none => simp
        | some t =>
          rw [hterm] at ht
          simp at ht
          simp [ht]
      simp [hw, ht, hcond]

/-- Claim C25 at its failing input. `podInitOneOfTwo` is pending, not being deleted, has
two init containers in its spec, one of them completed and one still running.
`GetPodStatus` returns "Init:Completed", not "Init:1/2". -/
theorem GetPodStatus_init_progress_failing_input :
    podInitOneOfTwo.DeletionTimestamp = none ∧
    podInitOneOfTwo.Status.Phase = "Pending" ∧
    podInitOneOfTwo.Spec.InitContainers.length = 2 ∧
    completedInitContainers podInitOneOfTwo = 1 ∧
    GetPodStatus podInitOneOfTwo = "Init:Completed" ∧
    GetPodStatus podInitOneOfTwo ≠ "Init:" ++ toString (completedInitContainers podInitOneOfTwo)
      ++ "/" ++ toString podInitOneOfTwo.Spec.InitContainers.length := by
  decide

/-- What the loop over the container statuses leaves in its variables. -/
theorem containerScan_spec (statuses : List ContainerStatus) :
    (containerScan statuses).waiting = (lastWithWaitingReason statuses).isSome ∧
    (∀ c, lastWithWaitingReason statuses = some c →
      (containerScan statuses).waitingReason = waitingReasonOf c.State) ∧
    (containerScan statuses).terminated = (lastWithTerminatedReason statuses).isSome ∧
    (∀ c, lastWithTerminatedReason statuses = some c →
      (containerScan statuses).terminatedReason = terminatedReasonOf c.State) ∧
    (containerScan statuses).hasRunning
      = statuses.any (fun c => c.State.Running.isSome) := by
  induction statuses using List.reverseRecOn with
  | nil => simp [containerScan, lastWithWaitingReason, lastWithTerminatedReason]
  | append_singleton xs x ih =>
    obtain ⟨ih1, ih2, ih3, ih4, ih5⟩ := ih
    have hstep : containerScan (xs ++ [x]) = containerScanStep (containerScan xs) x := by
      simp [containerScan, List.foldl_append]
    rw [hstep]
    unfold lastWithWaitingReason lastWithTerminatedReason at *
    simp only [List.filter_append, List.getLast?_append, List.any_append]
    by_cases hw : hasWaitingReason x.State = true <;>
      by_cases ht : hasTerminatedReason x.State = true <;>
      by_cases hr : x.State.Running.isSome = true <;>
      simp_all [containerScanStep, List.filter]

/-- Claim C26. For a pod that is not being deleted, whose phase is neither Failed nor
Succeeded, that is not Running with all containers ready and that has no init container
statuses, `GetPodStatus` is `podStatusByPriority`: the waiting reason of the last
container status that has one, whatever the terminated reasons; otherwise the terminated
reason of the last container status that has one; otherwise "Running,NotReady" when the
phase is Running and some container is running; otherwise the phase. -/
theorem GetPodStatus_priority (pod : Pod)
    (hdel : pod.DeletionTimestamp = none)
    (hfailed : pod.Status.Phase ≠ "Failed")
    (hsucceeded : pod.Status.Phase ≠ "Succeeded")
    (hready : ¬ (pod.Status.Phase = "Running" ∧
      pod.Status.ContainerStatuses.all (fun c => c.Ready) = true))
    (hinit : pod.Status.InitContainerStatuses = []) :
    GetPodStatus pod = podStatusByPriority pod := by
  obtain ⟨h1, h2, h3, h4, h5⟩ := containerScan_spec pod.Status.ContainerStatuses
  unfold GetPodStatus podStatusByPriority
  simp only [hdel, Option.isSome_none, Bool.false_eq_true, if_false, hfailed, hsucceeded,
    or_self, hready, hinit, initContainerLoop]
  cases hw : lastWithWaitingReason pod.Status.ContainerStatuses with
  | some c =>
    rw [hw] at h1
    simp [h1, h2 c hw]
  | none =>
    rw [hw] at h1
    cases ht : lastWithTerminatedReason pod.Status.ContainerStatuses with
    | some c =>
      rw [ht] at h3
      simp [h1, h3, h4 c ht]
    | none =>
      rw [ht] at h3
      simp only [h1, h3, h5, Option.isSome_none, Bool.false_eq_true, if_false]
      by_cases hp : pod.Status.Phase = "Running" <;>
        by_cases hr : pod.Status.ContainerStatuses.any (fun c => c.State.Running.isSome) = true <;>
        simp [hp, hr]

/-- Witness for C26: `podCrashLoop` has a container waiting with `CrashLoopBackOff` and a
later one terminated with `Error`; the status is the waiting reason. -/
theorem GetPodStatus_priority_witness :
    GetPodStatus podCrashLoop = podStatusByPriority podCrashLoop ∧
    podStatusByPriority podCrashLoop = "CrashLoopBackOff" :=
  ⟨GetPodStatus_priority podCrashLoop rfl (by decide) (by decide) (by decide) rfl, by decide⟩

/-! ## The pods table: claim C30 -/

/-- When every pod has a start time, the loop of `FormatPodsTable` appends one row per
pod in input order. -/
theorem podsTableRows_started (pods : List Pod) (sb : String)
    (h : ∀ pod ∈ pods, pod.Status.StartTime.isSome = true) :
    ∃ rows : List String, rows.length = pods.length ∧
      podsTableRows sb pods = Except.ok (rows.foldl (fun acc row => acc ++ row) sb) ∧
      ∀ i (hi : i < pods.length) (hj : i < rows.length),
        podsTableRow (pods.get ⟨i, hi⟩) = Except.ok (rows.get ⟨i, hj⟩) := by
  induction pods generalizing sb with
  | nil => exact ⟨[], rfl, by simp [podsTableRows], by simp⟩
  | cons pod rest ih =>
    have hpod := h pod (List.mem_cons_self _ _)
    cases hst : pod.Status.StartTime with
    | none => simp [hst] at hpod
    | some t =>
      have hrow : podsTableRow pod = Except.ok (pod.Namespace ++ "\t" ++ pod.Name ++ "\t"
          ++ GetPodStatus pod ++ "\t" ++ t.Format ++ "\t" ++ pod.Status.PodIP ++ "\n") := by
        simp [podsTableRow, hst]
      obtain ⟨rows, hlen, heq, hget⟩ := ih
        (sb ++ (pod.Namespace ++ "\t" ++ pod.Name ++ "\t" ++ GetPodStatus pod ++ "\t"
          ++ t.Format ++ "\t" ++ pod.Status.PodIP ++ "\n"))
        (fun p hp => h p (List.mem_cons_of_mem _ hp))
      refine ⟨(pod.Namespace ++ "\t" ++ pod.Name ++ "\t" ++ GetPodStatus pod ++ "\t"
          ++ t.Format ++ "\t" ++ pod.Status.PodIP ++ "\n") :: rows, by simp [hlen], ?_, ?_⟩
      · simp only [podsTableRows, hrow, heq, List.foldl_cons]
      · intro i hi hj
        cases i with
        | zero => simpa using hrow
        | succ j => exact hget j (by simpa using hi) (by simpa using hj)

/-- Claim C30 at its failing input. `podUnscheduled` has no start time. For the list that
holds only this pod `FormatPodsTable` returns no string: it panics on the nil pointer.
For the empty list it returns "No resources found". -/
theorem FormatPodsTable_failing_input :
    podUnscheduled.Status.StartTime = none ∧
    FormatPodsTable [podUnscheduled] = Except.error nilPointerPanic ∧
    FormatPodsTable [podCrashLoop, podUnscheduled] = Except.error nilPointerPanic ∧
    FormatPodsTable [] = Except.ok "No resources found" := by
  decide

/-! ## The pod tools: claims C22 to C24 -/

/-- Claim C22 at its failing input. The parameters parse, the core client is cached, and
the cluster answers the deletion with "not found": `deletePod` returns that error, yet
the handler returns the success text and no error. -/
theorem PodHandler_delete_failing_input :
    (PodHandler.deletePod podMissingApi
      { kind := Kind.core, path := "", context := "a", id := 0 } "prod" "web-9" false).1
      = Except.error "pods \"web-9\" not found" ∧
    (PodHandler.delete (okOracle 0) podMissingApi
      (Except.ok { Namespace := "prod", PodName := "web-9", Force := false })
      resolvedCached worldAfterTwo).1
      = Except.ok "Pod web-9 in namespace prod successfully deleted" ∧
    (PodHandler.delete (okOracle 0) podMissingApi
      (Except.ok { Namespace := "prod", PodName := "web-9", Force := false })
      resolvedCached worldAfterTwo).2.1
      = [ApiCall.deletePod { kind := Kind.core, path := "", context := "a", id := 0 }
          "prod" "web-9" none] := by
  decide

/-- Claim C23 at its failing input. The active context is `a` and the core client is
cached for it. Two requests that differ only in `Context` (`a` and `b`) produce the same
result and the same request, sent through the client and the REST config of context `a`;
nothing is sent for context `b`. -/
theorem PodHandler_execCommand_failing_input :
    PodHandler.execCommand (okOracle 0) (okOracle 0) okApi
      (Except.ok { Context := "b", Namespace := "prod", PodName := "web-0", Command := "id" })
      resolvedCached worldAfterTwo
    = PodHandler.execCommand (okOracle 0) (okOracle 0) okApi
      (Except.ok { Context := "a", Namespace := "prod", PodName := "web-0", Command := "id" })
      resolvedCached worldAfterTwo ∧
    (PodHandler.execCommand (okOracle 0) (okOracle 0) okApi
      (Except.ok { Context := "b", Namespace := "prod", PodName := "web-0", Command := "id" })
      resolvedCached worldAfterTwo).2.1
      = [ApiCall.execPod { kind := Kind.core, path := "", context := "a", id := 0 }
          { path := "", context := "a" } "prod" "web-0" ["/bin/sh", "-c", "id"]] ∧
    hasKey docAB.Contexts "b" = true := by
  refine ⟨rfl, by decide, by decide⟩

/-- Claim C24 at its failing input. A `delete_pod` request without a namespace: the
deletion is issued against the namespace `""`, not `default`, and the text names the
empty namespace. -/
theorem PodHandler_delete_namespace_failing_input :
    (PodHandler.delete (okOracle 0) okApi
      (Except.ok { Namespace := "", PodName := "web-9", Force := false })
      resolvedCached worldAfterTwo).2.1
      = [ApiCall.deletePod { kind := Kind.core, path := "", context := "a", id := 0 }
          "" "web-9" none] ∧
    (PodHandler.delete (okOracle 0) okApi
      (Except.ok { Namespace := "", PodName := "web-9", Force := false })
      resolvedCached worldAfterTwo).1
      = Except.ok "Pod web-9 in namespace  successfully deleted" := by
  decide

/-! ## Cordon and uncordon: claim C27 -/

/-- Claim C27. When the node is fetched, `markNodeAsUnschedulableState` with the value `v`
returns an error and issues no update if the node's `Spec.Unschedulable` is already `v`;
otherwise it issues exactly one update, whose node has `Spec.Unschedulable = v` and is
the fetched node in every other field. -/
theorem markNodeAsUnschedulableState_spec (api : ApiOracle) (clientset : Client)
    (nodeName : String) (v : Bool) (node : Node)
    (hget : api.getNode = Except.ok node) :
    (node.Spec.Unschedulable = v →
      (NodeHandler.markNodeAsUnschedulableState api clientset nodeName v).1
        = Except.error ("node " ++ nodeName ++ " is already marked unscheduable:"
            ++ toString v) ∧
      (NodeHandler.markNodeAsUnschedulableState api clientset nodeName v).2
        = [ApiCall.getNode clientset nodeName]) ∧
    (node.Spec.Unschedulable ≠ v →
      ∃ updated : Node,
        (NodeHandler.markNodeAsUnschedulableState api clientset nodeName v).2
          = [ApiCall.getNode clientset nodeName, ApiCall.updateNode clientset updated] ∧
        updated.Spec.Unschedulable = v ∧
        updated.Name = node.Name ∧ updated.ResourceVersion = node.ResourceVersion ∧
        updated.Labels = node.Labels ∧ updated.KubeletVersion = node.KubeletVersion ∧
        updated.Spec.PodCIDR = node.Spec.PodCIDR ∧
        updated.Spec.ProviderID = node.Spec.ProviderID ∧
        updated.Spec.Taints = node.Spec.Taints ∧
        (api.updateNodeErr = none →
          (NodeHandler.markNodeAsUnschedulableState api clientset nodeName v).1
            = Except.ok ())) := by
  constructor
  · intro h
    simp [NodeHandler.markNodeAsUnschedulableState, hget, h]
  · intro h
    refine ⟨{ node with Spec := { node.Spec with Unschedulable := v } }, ?_, rfl, rfl, rfl,
      rfl, rfl, rfl, rfl, rfl, ?_⟩
    · cases hu : api.updateNodeErr <;>
        simp [NodeHandler.markNodeAsUnschedulableState, hget, h, hu]
    · intro hu
      simp [NodeHandler.markNodeAsUnschedulableState, hget, h, hu]

/-- Witness for C27: cordoning the schedulable `nodeA` issues one update with the flag
set; uncordoning it is refused without an update. -/
theorem markNodeAsUnschedulableState_spec_witness :
    (∃ updated : Node,
      (NodeHandler.markNodeAsUnschedulableState okApi cachedCore "node-a" true).2
        = [ApiCall.getNode cachedCore "node-a", ApiCall.updateNode cachedCore updated] ∧
      updated.Spec.Unschedulable = true) ∧
    (NodeHandler.markNodeAsUnschedulableState okApi cachedCore "node-a" false).2
      = [ApiCall.getNode cachedCore "node-a"] :=
  have h1 := (markNodeAsUnschedulableState_spec okApi cachedCore "node-a" true nodeA rfl).2
    (by decide)
  have h2 := (markNodeAsUnschedulableState_spec okApi cachedCore "node-a" false nodeA rfl).1
    (by decide)
  ⟨h1.elim fun u hu => ⟨u, hu.1, hu.2.1⟩, h2.2⟩

/-- The handler `execCommand` never reads `params.Context`. -/
theorem PodHandler_execCommand_ignores_context (o oRest : Oracle) (api : ApiOracle)
    (params : execCommandParams) (ctx : String) (s : Vars) (w : World) :
    PodHandler.execCommand o oRest api (Except.ok { params with Context := ctx }) s w
      = PodHandler.execCommand o oRest api (Except.ok params) s w :=
  rfl

/-! ## Scaling: claim C29 -/

/-- The conversion `int32(n)` keeps every value of the 32-bit range. -/
theorem int32_of_inRange (n : Int) (hlo : -(2 ^ 31 : Int) ≤ n) (hhi : n ≤ (2 ^ 31 : Int) - 1) :
    int32 n = n := by
  unfold int32
  norm_num at hlo hhi ⊢
  omega

/-- Claim C29 as stated fails: `strconv.Atoi` accepts "2147483648" as 2147483648, and
both handlers then ask for -2147483648 replicas. -/
theorem KruiseHandler_scale_counterexample :
    Atoi "2147483648" = Except.ok 2147483648 ∧
    (KruiseHandler.scaleResource (okOracle 0) okApi
      (Except.ok { ResourceType := "cloneset", Namespace := "default", ResourceName := "web",
                   Replicas := "2147483648" }) resolvedCached worldAfterTwo).1
      = Except.ok "Successfully scaled CloneSet web in namespace default to -2147483648 replicas" ∧
    (KruiseHandler.scale (okOracle 0) okApi
      (Except.ok { ResourceType := "asts", Namespace := "default", ResourceName := "web",
                   Replicas := "2147483648" }) resolvedCached worldAfterTwo).2.1
      = [ApiCall.getStatefulSet { kind := Kind.workload, path := "", context := "a", id := 1 }
           "default" "web",
         ApiCall.updateStatefulSet
           { kind := Kind.workload, path := "", context := "a", id := 1 } "default"
           { Namespace := "default", Name := "web", ResourceVersion := "7",
             Replicas := some (-2147483648) }] := by
  decide

/-- Claim C29, amended. When `strconv.Atoi` accepts the replicas string as `n` and `n`
lies in the 32-bit range (negative values included), `scaleResource` and `scale` both
call the scaling function of the resource type with exactly `n` replicas, in the
namespace of the request or `default`. -/
theorem KruiseHandler_scale_passes_replicas (o : Oracle) (api : ApiOracle)
    (params : KruiseScaleParams) (s : Vars) (w : World) (n : Int)
    (hatoi : Atoi params.Replicas = Except.ok n)
    (hlo : -(2 ^ 31 : Int) ≤ n) (hhi : n ≤ (2 ^ 31 : Int) - 1) :
    KruiseHandler.scaleResource o api (Except.ok params) s w
      = KruiseHandler.scale o api (Except.ok params) s w ∧
    ((params.ResourceType = "advancedstatefulset" ∨
        params.ResourceType = "advancedstatefulsets" ∨ params.ResourceType = "asts") →
      KruiseHandler.scaleResource o api (Except.ok params) s w
        = KruiseHandler.scaleAdvancedStatefulSet o api
            (if params.Namespace = "" then "default" else params.Namespace)
            params.ResourceName n s w) ∧
    ((params.ResourceType = "cloneset" ∨ params.ResourceType = "clonesets") →
      KruiseHandler.scaleResource o api (Except.ok params) s w
        = KruiseHandler.scaleCloneSet o api
            (if params.Namespace = "" then "default" else params.Namespace)
            params.ResourceName n s w) := by
  have h32 := int32_of_inRange n hlo hhi
  refine ⟨rfl, ?_, ?_⟩
  · intro ht
    simp only [KruiseHandler.scaleResource, hatoi, h32, KruiseHandler.scaleByType, ht, if_true]
  · intro ht
    have hne : ¬ (params.ResourceType = "advancedstatefulset" ∨
        params.ResourceType = "advancedstatefulsets" ∨ params.ResourceType = "asts") := by
      rcases ht with h | h <;> rw [h] <;> decide
    simp only [KruiseHandler.scaleResource, hatoi, h32, KruiseHandler.scaleByType, ht, hne,
      if_true, if_false]

/-- Witness for the amended C29: the request for `-2` replicas of a clone set. -/
theorem KruiseHandler_scale_passes_replicas_witness :
    KruiseHandler.scaleResource (okOracle 0) okApi
      (Except.ok { ResourceType := "cloneset", Namespace := "", ResourceName := "web",
                   Replicas := "-2" }) resolvedCached worldAfterTwo
      = KruiseHandler.scaleCloneSet (okOracle 0) okApi "default" "web" (-2) resolvedCached
          worldAfterTwo :=
  (KruiseHandler_scale_passes_replicas (okOracle 0) okApi
    { ResourceType := "cloneset", Namespace := "", ResourceName := "web", Replicas := "-2" }
    resolvedCached worldAfterTwo (-2) (by decide) (by decide) (by decide)).2.2
    (Or.inl rfl)

end K8sMcp
